import Mathlib

/-!
Verification development for the LLM-API aggregator.

This file gives a shallow embedding, in Lean 4, of the rate limiter
(`app/utils/rate_limiter.py`), the provider client statistics
(`app/services/provider_clients.py`) and the load balancer / request
router (`app/services/load_balancer.py`), and proves properties of the
embedded definitions.

Modelling conventions:
* Python floats (timestamps, bucket levels, scores) are modelled as `ℚ`.
* Python dictionaries keyed by strings are modelled as association lists
  `List (String × α)`; `defaultdict` reads use an explicit default.
* The per-key entries of the limiter's dictionaries are independent of
  one another, so the limiter state is modelled per key (`KeyState`).
* `async` methods hold a per-instance lock for their whole body, so each
  method is modelled as an atomic state transformer.
-/

namespace LLMAPI

/-- Python `int(x)` applied to a float: truncation toward zero (floor
for nonnegative values, ceiling for negative ones). -/
def pyInt (q : ℚ) : ℤ := if 0 ≤ q then ⌊q⌋ else ⌈q⌉

/-- Python floor semantics: `x // y` floors, so `int(x // 1)` of a
nonnegative quotient is `⌊x⌋`. -/
def qfloor (q : ℚ) : ℤ := ⌊q⌋

/-- Civil date (year, month, day) of a day count relative to 1970-01-01,
proleptic Gregorian calendar (Howard Hinnant's `civil_from_days`).  Used
to model `time.gmtime(now).tm_year` / `tm_mon`. -/
def civilFromDays (days : ℤ) : ℤ × ℤ × ℤ :=
  let z := days + 719468
  let era : ℤ := Int.fdiv z 146097
  let doe : ℤ := z - era * 146097
  let yoe : ℤ := (doe - doe / 1460 + doe / 36524 - doe / 146096) / 365
  let y : ℤ := yoe + era * 400
  let doy : ℤ := doe - (365 * yoe + yoe / 4 - yoe / 100)
  let mp : ℤ := (5 * doy + 2) / 153
  let d : ℤ := doy - (153 * mp + 2) / 5 + 1
  let m : ℤ := mp + (if mp < 10 then 3 else -9)
  (if m ≤ 2 then y + 1 else y, m, d)

/-- Day count relative to 1970-01-01 of a civil date (Hinnant's
`days_from_civil`). -/
def daysFromCivil (y m d : ℤ) : ℤ :=
  let y := if m ≤ 2 then y - 1 else y
  let era : ℤ := Int.fdiv y 400
  let yoe : ℤ := y - era * 400
  let mp : ℤ := if 2 < m then m - 3 else m + 9
  let doy : ℤ := (153 * mp + 2) / 5 + d - 1
  let doe : ℤ := yoe * 365 + yoe / 4 - yoe / 100 + doy
  era * 146097 + doe - 719468

/-- `time.gmtime(now).tm_year * 12 + time.gmtime(now).tm_mon`: the
month index used by the limiter's monthly-rollover detection. -/
def monthIndex (now : ℚ) : ℤ :=
  let c := civilFromDays (qfloor (now / 86400))
  c.1 * 12 + c.2.1

/-- `int(now // 86400)`: the day index used by the limiter's
daily-rollover detection. -/
def dayIndex (now : ℚ) : ℤ := qfloor (now / 86400)

/-- `time.mktime((year, mon + 1, 1, 0, 0, 0, 0, 0, 0))` as used to
compute the start of the next month, modelled with the process timezone
taken to be UTC (months > 12 are normalized into the next year, as
`mktime` does). -/
def mktimeMonthStart (y m : ℤ) : ℚ :=
  let ym := if 12 < m then (y + 1, m - 12) else (y, m)
  ((daysFromCivil ym.1 ym.2 1 * 86400 : ℤ) : ℚ)

/-- An entry of a request/token window deque:
`{"timestamp": now, "tokens": tokens_used}`. -/
structure Entry where
  timestamp : ℚ
  tokens : ℕ
deriving DecidableEq, Repr

/-- `while window and window[0]["timestamp"] < cutoff: window.popleft()`
on a deque: drop expired entries from the front. -/
def pruneWindow (cutoff : ℚ) (w : List Entry) : List Entry :=
  w.dropWhile (fun e => decide (e.timestamp < cutoff))

/-- Summed token counts of a window
(`sum(entry["tokens"] for entry in window)`). -/
def windowTokens (w : List Entry) : ℕ := (w.map Entry.tokens).sum

/-- The `RateLimit` dataclass.  `requests_per_minute` is required (and
validated positive by `__post_init__`); the other dimensions are
optional (`None` by default).  The burst/refill/window fields exist on
the dataclass but are not consulted by `EnhancedRateLimiter`. -/
structure RateLimit where
  requests_per_minute : ℕ
  requests_per_hour : Option ℕ := none
  requests_per_day : Option ℕ := none
  requests_per_month : Option ℕ := none
  tokens_per_minute : Option ℕ := none
  tokens_per_hour : Option ℕ := none
  tokens_per_day : Option ℕ := none
  tokens_per_month : Option ℕ := none
  burst_limit : Option ℕ := none
  token_refill_rate : ℚ := 1
  window_size : ℕ := 60
deriving DecidableEq, Repr

/-- Python truthiness of an optional integer limit (`if limit.requests_per_hour:`):
`None` and `0` are falsy, so a missing or zero dimension is skipped. -/
def truthy (o : Option ℕ) : Bool := o.getD 0 != 0

/-- Per-key state of `EnhancedRateLimiter`.  The limiter's dictionaries
(`request_windows`, `token_windows`, `daily_counters`,
`monthly_counters`, `last_reset`) are `defaultdict`s keyed by the
limiter key; entries for distinct keys never interact, so the state for
one key is modelled directly.  Defaults are the `defaultdict` defaults:
empty deques, zero counters, `last_reset` 0. -/
structure KeyState where
  reqMinute : List Entry := []
  reqHour : List Entry := []
  tokMinute : List Entry := []
  tokHour : List Entry := []
  dailyRequests : ℕ := 0
  dailyTokens : ℕ := 0
  monthlyRequests : ℕ := 0
  monthlyTokens : ℕ := 0
  lastResetDaily : ℤ := 0
  lastResetMonthly : ℤ := 0
deriving DecidableEq, Repr

/-- `EnhancedRateLimiter._update_periodic_counters`: reset the daily
(resp. monthly) counters of the key when the current day index (resp.
year×12+month) differs from the last-seen one.  Replacing
`daily_counters[key]` by a fresh `defaultdict(int)` zeroes both the
`"requests"` and `"tokens"` accumulators of that dimension. -/
def update_periodic_counters (s : KeyState) (now : ℚ) : KeyState :=
  let currentDay := dayIndex now
  let currentMonth := monthIndex now
  let s :=
    if s.lastResetDaily ≠ currentDay then
      { s with dailyRequests := 0, dailyTokens := 0, lastResetDaily := currentDay }
    else s
  if s.lastResetMonthly ≠ currentMonth then
    { s with monthlyRequests := 0, monthlyTokens := 0, lastResetMonthly := currentMonth }
  else s

/-- The info dictionary a dimension check returns: on a pass
`{current, limit, remaining}`, on a failure
`{current, limit, reset_time, retry_after}`. -/
inductive CheckInfo where
  | pass (current : ℕ) (limit : ℕ) (remaining : ℤ)
  | fail (current : ℕ) (limit : ℕ) (resetTime : ℚ) (retryAfter : ℤ)
deriving DecidableEq, Repr

/-- `_check_requests_per_minute`: prune the minute window to
`now - 60`, then compare its length with the limit.  The pruning
mutates the stored deque whether or not the check passes. -/
def check_requests_per_minute (s : KeyState) (v : ℕ) (now : ℚ) :
    (Bool × CheckInfo) × KeyState :=
  let window := pruneWindow (now - 60) s.reqMinute
  let s := { s with reqMinute := window }
  let c := window.length
  let res :=
    if c ≥ v then
      (false, CheckInfo.fail c v ((now - 60) + 60)
        (match window with
          | [] => 1
          | e :: _ => pyInt (e.timestamp + 60 - now)))
    else (true, CheckInfo.pass c v ((v : ℤ) - c))
  (res, s)

/-- `_check_requests_per_hour`: as per minute but with a 3600 s window
and a fallback `retry_after` of 60. -/
def check_requests_per_hour (s : KeyState) (v : ℕ) (now : ℚ) :
    (Bool × CheckInfo) × KeyState :=
  let window := pruneWindow (now - 3600) s.reqHour
  let s := { s with reqHour := window }
  let c := window.length
  let res :=
    if c ≥ v then
      (false, CheckInfo.fail c v ((now - 3600) + 3600)
        (match window with
          | [] => 60
          | e :: _ => pyInt (e.timestamp + 3600 - now)))
    else (true, CheckInfo.pass c v ((v : ℤ) - c))
  (res, s)

/-- `_check_requests_per_day`: compares the daily accumulator with the
limit; resets at the next multiple of 86400 s. -/
def check_requests_per_day (s : KeyState) (v : ℕ) (now : ℚ) :
    (Bool × CheckInfo) × KeyState :=
  let c := s.dailyRequests
  let res :=
    if c ≥ v then
      let nextDay : ℚ := (((dayIndex now + 1) * 86400 : ℤ) : ℚ)
      (false, CheckInfo.fail c v nextDay (pyInt (nextDay - now)))
    else (true, CheckInfo.pass c v ((v : ℤ) - c))
  (res, s)

/-- `_check_requests_per_month`: compares the monthly accumulator with
the limit; resets at the start of the next month (via `mktime`). -/
def check_requests_per_month (s : KeyState) (v : ℕ) (now : ℚ) :
    (Bool × CheckInfo) × KeyState :=
  let c := s.monthlyRequests
  let res :=
    if c ≥ v then
      let cd := civilFromDays (qfloor (now / 86400))
      let nextMonthTime := mktimeMonthStart cd.1 (cd.2.1 + 1)
      (false, CheckInfo.fail c v nextMonthTime (pyInt (nextMonthTime - now)))
    else (true, CheckInfo.pass c v ((v : ℤ) - c))
  (res, s)

/-- `_check_tokens_per_minute` (called from `is_allowed` with the
default `tokens_used = 0`): prune the token minute window, sum the
surviving token counts, and fail when `current + tokens_used` strictly
exceeds the limit. -/
def check_tokens_per_minute (s : KeyState) (v : ℕ) (now : ℚ) (tokens_used : ℕ) :
    (Bool × CheckInfo) × KeyState :=
  let window := pruneWindow (now - 60) s.tokMinute
  let s := { s with tokMinute := window }
  let c := windowTokens window
  let res :=
    if c + tokens_used > v then
      (false, CheckInfo.fail c v ((now - 60) + 60)
        (match window with
          | [] => 1
          | e :: _ => pyInt (e.timestamp + 60 - now)))
    else (true, CheckInfo.pass c v ((v : ℤ) - c))
  (res, s)

/-- `_check_tokens_per_hour`. -/
def check_tokens_per_hour (s : KeyState) (v : ℕ) (now : ℚ) (tokens_used : ℕ) :
    (Bool × CheckInfo) × KeyState :=
  let window := pruneWindow (now - 3600) s.tokHour
  let s := { s with tokHour := window }
  let c := windowTokens window
  let res :=
    if c + tokens_used > v then
      (false, CheckInfo.fail c v ((now - 3600) + 3600)
        (match window with
          | [] => 60
          | e :: _ => pyInt (e.timestamp + 3600 - now)))
    else (true, CheckInfo.pass c v ((v : ℤ) - c))
  (res, s)

/-- `_check_tokens_per_day`. -/
def check_tokens_per_day (s : KeyState) (v : ℕ) (now : ℚ) (tokens_used : ℕ) :
    (Bool × CheckInfo) × KeyState :=
  let c := s.dailyTokens
  let res :=
    if c + tokens_used > v then
      let nextDay : ℚ := (((dayIndex now + 1) * 86400 : ℤ) : ℚ)
      (false, CheckInfo.fail c v nextDay (pyInt (nextDay - now)))
    else (true, CheckInfo.pass c v ((v : ℤ) - c))
  (res, s)

/-- `_check_tokens_per_month`. -/
def check_tokens_per_month (s : KeyState) (v : ℕ) (now : ℚ) (tokens_used : ℕ) :
    (Bool × CheckInfo) × KeyState :=
  let c := s.monthlyTokens
  let res :=
    if c + tokens_used > v then
      let cd := civilFromDays (qfloor (now / 86400))
      let nextMonthTime := mktimeMonthStart cd.1 (cd.2.1 + 1)
      (false, CheckInfo.fail c v nextMonthTime (pyInt (nextMonthTime - now)))
    else (true, CheckInfo.pass c v ((v : ℤ) - c))
  (res, s)

/-- `_record_usage` (invoked from `is_allowed` with its default
`tokens_used = 0`): append the timestamp to both request windows,
append to token windows only when `tokens_used > 0`, and increment the
daily and monthly accumulators. -/
def record_usage (s : KeyState) (now : ℚ) (tokens_used : ℕ) : KeyState :=
  let e : Entry := ⟨now, tokens_used⟩
  let s := { s with reqMinute := s.reqMinute ++ [e], reqHour := s.reqHour ++ [e] }
  let s :=
    if tokens_used > 0 then
      { s with tokMinute := s.tokMinute ++ [⟨now, tokens_used⟩],
               tokHour := s.tokHour ++ [⟨now, tokens_used⟩] }
    else s
  { s with dailyRequests := s.dailyRequests + 1,
           dailyTokens := s.dailyTokens + tokens_used,
           monthlyRequests := s.monthlyRequests + 1,
           monthlyTokens := s.monthlyTokens + tokens_used }

/-- `record_token_usage`: the post-completion token accounting path.
Appends to both token windows and bumps the daily/monthly token
accumulators; request windows and request accumulators are untouched. -/
def record_token_usage (s : KeyState) (now : ℚ) (tokens_used : ℕ) : KeyState :=
  { s with tokMinute := s.tokMinute ++ [⟨now, tokens_used⟩],
           tokHour := s.tokHour ++ [⟨now, tokens_used⟩],
           dailyTokens := s.dailyTokens + tokens_used,
           monthlyTokens := s.monthlyTokens + tokens_used }

/-- The check-collection phase of `is_allowed`: requests-per-minute is
always checked; each other dimension is checked only when its limit is
truthy.  Every executed check both contributes a `(name, allowed, info)`
triple and applies its pruning to the state. -/
def run_checks (s : KeyState) (limit : RateLimit) (now : ℚ) :
    List (String × Bool × CheckInfo) × KeyState :=
  let c1 := check_requests_per_minute s limit.requests_per_minute now
  let acc := ([("requests_per_minute", c1.1)], c1.2)
  let acc :=
    if truthy limit.requests_per_hour then
      let c := check_requests_per_hour acc.2 (limit.requests_per_hour.getD 0) now
      (acc.1 ++ [("requests_per_hour", c.1)], c.2)
    else acc
  let acc :=
    if truthy limit.requests_per_day then
      let c := check_requests_per_day acc.2 (limit.requests_per_day.getD 0) now
      (acc.1 ++ [("requests_per_day", c.1)], c.2)
    else acc
  let acc :=
    if truthy limit.requests_per_month then
      let c := check_requests_per_month acc.2 (limit.requests_per_month.getD 0) now
      (acc.1 ++ [("requests_per_month", c.1)], c.2)
    else acc
  let acc :=
    if truthy limit.tokens_per_minute then
      let c := check_tokens_per_minute acc.2 (limit.tokens_per_minute.getD 0) now 0
      (acc.1 ++ [("tokens_per_minute", c.1)], c.2)
    else acc
  let acc :=
    if truthy limit.tokens_per_hour then
      let c := check_tokens_per_hour acc.2 (limit.tokens_per_hour.getD 0) now 0
      (acc.1 ++ [("tokens_per_hour", c.1)], c.2)
    else acc
  let acc :=
    if truthy limit.tokens_per_day then
      let c := check_tokens_per_day acc.2 (limit.tokens_per_day.getD 0) now 0
      (acc.1 ++ [("tokens_per_day", c.1)], c.2)
    else acc
  let acc :=
    if truthy limit.tokens_per_month then
      let c := check_tokens_per_month acc.2 (limit.tokens_per_month.getD 0) now 0
      (acc.1 ++ [("tokens_per_month", c.1)], c.2)
    else acc
  acc

/-- Result dictionary of `is_allowed`: on success the
`rate_limit_status` map over all executed checks, on failure the
`failed_checks` name list together with the first failing check's
info. -/
inductive AllowResult where
  | allowed (status : List (String × CheckInfo))
  | denied (failedChecks : List String) (info : CheckInfo)
deriving DecidableEq, Repr

/-- The `allowed` boolean of the result tuple. -/
def AllowResult.ok : AllowResult → Bool
  | .allowed _ => true
  | .denied _ _ => false

/-- `EnhancedRateLimiter.is_allowed`: update periodic counters, run
every configured dimension check (each pruning its window), and either
report the failed checks (recording nothing) or record the usage with
the default token count 0. -/
def is_allowed (s : KeyState) (limit : RateLimit) (now : ℚ) :
    AllowResult × KeyState :=
  let s := update_periodic_counters s now
  let rc := run_checks s limit now
  let checks := rc.1
  let s := rc.2
  let failed := checks.filter (fun c => !c.2.1)
  match failed with
  | [] =>
      let s := record_usage s now 0
      (AllowResult.allowed (checks.map (fun c => (c.1, c.2.2))), s)
  | f :: _ => (AllowResult.denied (failed.map (fun c => c.1)) f.2.2, s)

/-! ### Leaky bucket limiter -/

/-- The per-key bucket dictionary entry of `LeakyBucketRateLimiter`. -/
structure LeakyBucket where
  level : ℚ
  lastLeak : ℚ
deriving DecidableEq, Repr

/-- Info dictionary returned by `LeakyBucketRateLimiter.is_allowed`. -/
inductive LeakyInfo where
  | allowed (bucketLevel : ℚ) (capacity : ℕ) (remaining : ℤ)
  | denied (bucketLevel : ℚ) (capacity : ℕ) (retryAfter : ℤ)
deriving DecidableEq, Repr

/-- `LeakyBucketRateLimiter.is_allowed` for one key: initialize the
bucket on first use, drain `elapsed × limit/60`, deny when the drained
level has reached the capacity (`requests_per_minute`), otherwise add
the request (level + 1). -/
def leaky_is_allowed (b : Option LeakyBucket) (rpm : ℕ) (now : ℚ) :
    (Bool × LeakyInfo) × LeakyBucket :=
  let b := match b with
    | none => ({ level := 0, lastLeak := now } : LeakyBucket)
    | some b => b
  let time_passed := now - b.lastLeak
  let leak_rate : ℚ := (rpm : ℚ) / 60
  let leaked := time_passed * leak_rate
  let level := max 0 (b.level - leaked)
  if level ≥ (rpm : ℚ) then
    ((false, LeakyInfo.denied level rpm (pyInt ((level - rpm + 1) / leak_rate))),
      { level := level, lastLeak := now })
  else
    ((true, LeakyInfo.allowed (level + 1) rpm (pyInt ((rpm : ℚ) - (level + 1)))),
      { level := level + 1, lastLeak := now })

/-! ### Provider client -/

/-- The mutable statistics fields of `BaseProviderClient`, together
with the static `models` list and provider name used by `get_stats`. -/
structure ClientStats where
  provider_name : String := ""
  total_requests : ℕ := 0
  successful_requests : ℕ := 0
  failed_requests : ℕ := 0
  last_request_time : ℚ := 0
  average_latency : ℚ := 0
  total_tokens_used : ℕ := 0
  models : List String := []
deriving DecidableEq, Repr

/-- The dictionary returned by `BaseProviderClient.get_stats`. -/
structure StatsSnapshot where
  provider : String
  total_requests : ℕ
  successful_requests : ℕ
  failed_requests : ℕ
  success_rate : ℚ
  average_latency : ℚ
  last_request_time : ℚ
  total_tokens_used : ℕ
  models : List String
  available : Bool
deriving DecidableEq, Repr

/-- `BaseProviderClient.get_stats`: `success_rate` is
`successful/total` (0 with no requests) and `available` is
`success_rate > 0.5 if total_requests > 0 else True`. -/
def get_stats (c : ClientStats) : StatsSnapshot :=
  let success_rate : ℚ :=
    if c.total_requests > 0 then (c.successful_requests : ℚ) / c.total_requests else 0
  { provider := c.provider_name
    total_requests := c.total_requests
    successful_requests := c.successful_requests
    failed_requests := c.failed_requests
    success_rate := success_rate
    average_latency := c.average_latency
    last_request_time := c.last_request_time
    total_tokens_used := c.total_tokens_used
    models := c.models
    available := if c.total_requests > 0 then decide (success_rate > 1/2) else true }

/-- `BaseProviderClient._get_rate_limit_for_model`: the model's own
limit, else the `"default"` limit, else a fallback
`RateLimit(requests_per_minute=10, tokens_per_minute=10000)`. -/
def get_rate_limit_for_model (rateLimits : List (String × RateLimit)) (model : String) :
    RateLimit :=
  match (rateLimits.find? (fun e => e.1 == model)).map Prod.snd with
  | some l => l
  | none =>
    match (rateLimits.find? (fun e => e.1 == "default")).map Prod.snd with
    | some l => l
    | none => { requests_per_minute := 10, tokens_per_minute := some 10000 }

/-- Info part of the `check_availability` result tuple. -/
inductive AvailInfo where
  | apiKeyMissing
  | rateLimited (rate_info : AllowResult)
  | available
deriving DecidableEq, Repr

/-- `BaseProviderClient.check_availability`: fail closed when no API
key is configured (empty string, Python-falsy); otherwise resolve the
model's rate limit and delegate to
`rate_limiter_manager.check_rate_limit`, which is the recording
`EnhancedRateLimiter.is_allowed` on the `provider:model` key's state. -/
def check_availability (apiKey : String) (rateLimits : List (String × RateLimit))
    (model : String) (s : KeyState) (now : ℚ) : (Bool × AvailInfo) × KeyState :=
  if apiKey = "" then ((false, AvailInfo.apiKeyMissing), s)
  else
    let rate_limit := get_rate_limit_for_model rateLimits model
    let (r, s) := is_allowed s rate_limit now
    if !r.ok then ((false, AvailInfo.rateLimited r), s)
    else ((true, AvailInfo.available), s)

/-! ### Smart load balancer -/

/-- Association-list lookup modelling `dict.get(k)` /
`k in dict` + `dict[k]`. -/
def alistLookup {α : Type} (l : List (String × α)) (k : String) : Option α :=
  (l.find? (fun e => e.1 == k)).map Prod.snd

/-- Association-list store modelling `dict[k] = v`: replace the
binding if the key is present (keys are unique by construction),
insert at the end otherwise. -/
def alistSet {α : Type} : List (String × α) → String → α → List (String × α)
  | [], k, v => [(k, v)]
  | e :: t, k, v => if e.1 == k then (k, v) :: t else e :: alistSet t k v

/-- Association-list delete modelling `del dict[k]`. -/
def alistErase {α : Type} (l : List (String × α)) (k : String) :
    List (String × α) :=
  l.filter (fun e => e.1 != k)

/-- Mutable state of `SmartLoadBalancer`: in-flight load counters
(`defaultdict(int)`), last selection times, and the per-provider
counters maintained by `update_provider_stats`. -/
structure SmartProviderStats where
  total_requests : ℕ := 0
  successful_requests : ℕ := 0
  failed_requests : ℕ := 0
  total_latency : ℚ := 0
deriving DecidableEq, Repr

structure SmartState where
  currentLoads : List (String × ℕ) := []
  lastSelectionTime : List (String × ℚ) := []
  providerStats : List (String × SmartProviderStats) := []
deriving DecidableEq, Repr

/-- `max(self.current_loads.values()) if self.current_loads else 1`. -/
def maxLoad (loads : List (String × ℕ)) : ℕ :=
  if loads.isEmpty then 1 else (loads.map Prod.snd).foldr max 0

/-- The factor scores and weighted combination of
`SmartLoadBalancer._calculate_provider_score`, computed from the
`get_stats` snapshot of the provider's client.  Weights: success 0.30,
latency 0.25, load 0.20, recency 0.10, experience 0.10, model 0.05. -/
def score_from_stats (stats : StatsSnapshot) (models : List String)
    (st : SmartState) (provider : String) (current_time : ℚ)
    (reqModel : Option String) : ℚ :=
  let success_score := stats.success_rate
  let latency_score := max 0 (1 - stats.average_latency / 10)
  let current_load := (alistLookup st.currentLoads provider).getD 0
  let max_load := maxLoad st.currentLoads
  let load_score : ℚ := 1 - (current_load : ℚ) / (max max_load 1 : ℕ)
  let last_used := (alistLookup st.lastSelectionTime provider).getD 0
  let time_since_last := current_time - last_used
  let recency_score := min 1 (time_since_last / 60)
  let experience_score := min 1 ((stats.total_requests : ℚ) / 100)
  let model_score : ℚ :=
    match reqModel with
    | some m => if m ≠ "" then (if m ∈ models then 1 else 1/2) else 1
    | none => 1
  (30/100) * success_score + (25/100) * latency_score + (20/100) * load_score
    + (10/100) * recency_score + (10/100) * experience_score
    + (5/100) * model_score

/-- `SmartLoadBalancer._calculate_provider_score`: 0.0 when the
registry has no client for the provider, otherwise the weighted
combination above on the client's `get_stats` snapshot. -/
def calculate_provider_score (client : Option ClientStats) (st : SmartState)
    (provider : String) (current_time : ℚ) (reqModel : Option String) : ℚ :=
  match client with
  | none => 0
  | some c => score_from_stats (get_stats c) c.models st provider current_time reqModel

/-- Stable insertion of a scored provider into a descending-sorted
list: placed before the first strictly smaller score, after equal
scores. -/
def insertByScore (x : String × ℚ) : List (String × ℚ) → List (String × ℚ)
  | [] => [x]
  | y :: ys => if y.2 ≤ x.2 then x :: y :: ys else y :: insertByScore x ys

/-- Python's stable `list.sort(key=score, reverse=True)`: descending by
score, ties kept in original order. -/
def sortByScoreDesc : List (String × ℚ) → List (String × ℚ)
  | [] => []
  | x :: xs => insertByScore x (sortByScoreDesc xs)

/-- The weighted-random walk of `select_provider`: accumulate weights
and return the first provider whose cumulative weight reaches the drawn
value. -/
def weightedPick (randVal : ℚ) (cum : ℚ) : List (String × ℚ) → Option String
  | [] => none
  | (p, w) :: rest =>
      if randVal ≤ cum + w then some p else weightedPick randVal (cum + w) rest

/-- `SmartLoadBalancer.select_provider`.  The availability snapshot,
the registry (`provider_manager.get_client`), the current time and the
value drawn by `random.uniform(0, total_weight)` are passed as
parameters.  Scores every available provider, sorts descending, takes
the top `min(3, n)`, and draws weighted-randomly among them; the zero-
total-weight fallback and the loop fall-through return the top scorer
without recording a selection.  A recorded selection bumps the
provider's in-flight load and last-selection time. -/
def select_provider (providers : List String) (clients : String → Option ClientStats)
    (st : SmartState) (current_time : ℚ) (reqModel : Option String) (randVal : ℚ) :
    Option String × SmartState :=
  match providers with
  | [] => (none, st)
  | _ :: _ =>
    let provider_scores := providers.map
      (fun p => (p, calculate_provider_score (clients p) st p current_time reqModel))
    let sorted := sortByScoreDesc provider_scores
    let top_providers := sorted.take (min 3 sorted.length)
    let total_weight := (top_providers.map Prod.snd).sum
    if total_weight = 0 then
      ((sorted.head?).map Prod.fst, st)
    else
      match weightedPick randVal 0 top_providers with
      | some p =>
          (some p,
            { st with
              currentLoads := alistSet st.currentLoads p
                ((alistLookup st.currentLoads p).getD 0 + 1),
              lastSelectionTime := alistSet st.lastSelectionTime p current_time })
      | none => ((top_providers.head?).map Prod.fst, st)

/-- `SmartLoadBalancer.update_provider_stats`: decrement the in-flight
load (floored at 0, only for providers present in the dict) and update
the per-provider counters. -/
def update_provider_stats (st : SmartState) (provider : String) (success : Bool)
    (latency : ℚ) : SmartState :=
  let loads :=
    match alistLookup st.currentLoads provider with
    | some v => alistSet st.currentLoads provider (v - 1)
    | none => st.currentLoads
  let stats := (alistLookup st.providerStats provider).getD {}
  let stats := { stats with
    total_requests := stats.total_requests + 1,
    total_latency := stats.total_latency + latency }
  let stats :=
    if success then { stats with successful_requests := stats.successful_requests + 1 }
    else { stats with failed_requests := stats.failed_requests + 1 }
  { st with currentLoads := loads, providerStats := alistSet st.providerStats provider stats }

/-! ### Request router (`LoadBalancerManager`) -/

/-- `self.retry_attempts = 3`. -/
def retry_attempts : ℕ := 3

/-- `self.circuit_breaker_timeout = 300` (seconds). -/
def circuit_breaker_timeout : ℚ := 300

/-- `LoadBalancerManager._is_circuit_broken`: open exactly while the
provider has a failure record with `now - last_failure < timeout`. -/
def is_circuit_broken (failedProviders : List (String × ℚ)) (timeout : ℚ)
    (provider : String) (now : ℚ) : Bool :=
  match alistLookup failedProviders provider with
  | none => false
  | some lastFailure => decide (now - lastFailure < timeout)

/-- `LoadBalancerManager._update_circuit_breaker`: record the failure
time for the provider. -/
def update_circuit_breaker (failedProviders : List (String × ℚ))
    (provider : String) (now : ℚ) : List (String × ℚ) :=
  alistSet failedProviders provider now

/-- Outcome of one `generate_completion` dispatch. -/
inductive DispatchOutcome where
  | ok (provider : String) (content : String)
  | error (msg : String)
deriving DecidableEq, Repr

/-- The environment of one `route_request` call: the balancer's
selection, the registry and the provider dispatch outcome, each indexed
by the (1-based) attempt number, plus the wall clock at each attempt. -/
structure RouterEnv where
  select : ℕ → Option String
  clientExists : String → Bool
  dispatch : ℕ → DispatchOutcome
  timeAt : ℕ → ℚ

/-- The two terminal exceptions of `route_request`. -/
inductive RouteError where
  | noProvidersAvailable
  | allProvidersFailed (lastError : Option String)
deriving DecidableEq, Repr

/-- Observable outcome of a `route_request` run: the returned response
or raised error, the number of loop iterations (attempt slots)
consumed, the attempt numbers at which `generate_completion` was
actually invoked, the attempt numbers consumed by a circuit-open skip,
the sleeps performed (in order), the provider cleared on success, and
the final circuit-breaker map. -/
structure RouteOutcome where
  result : Except RouteError DispatchOutcome
  attemptsMade : ℕ
  dispatchAttempts : List ℕ
  circuitSkips : List ℕ
  sleeps : List ℚ
  cleared : Option String
  finalFailed : List (String × ℚ)
deriving Repr

/-- The `while attempts < self.retry_attempts` loop of
`LoadBalancerManager.route_request`.  `attempts` and the loop guard are
exactly the source's; the structural `fuel` argument only bounds the
recursion and is passed in ≥ `retry_attempts - attempts`, so the
`fuel = 0` base case coincides with the loop-exit raise.  Each
iteration: increment `attempts`; select; on no provider sleep 1 s and
retry (raising after the last attempt); skip a circuit-open provider or
a missing client (consuming the slot); otherwise dispatch — success
clears the provider's circuit record and returns, failure records the
failure time and, with attempts remaining, sleeps
`min(attempts * 0.5, 2.0)`. -/
def route_loop (env : RouterEnv) : ℕ → ℕ → Option String → List (String × ℚ) →
    RouteOutcome
  | 0, _, lastError, fp =>
    { result := Except.error (RouteError.allProvidersFailed lastError)
      attemptsMade := 0, dispatchAttempts := [], circuitSkips := []
      sleeps := [], cleared := none, finalFailed := fp }
  | fuel + 1, attempts, lastError, fp =>
    if attempts < retry_attempts then
      let a := attempts + 1
      match env.select a with
      | none =>
        if a < retry_attempts then
          let o := route_loop env fuel a lastError fp
          { o with attemptsMade := o.attemptsMade + 1, sleeps := 1 :: o.sleeps }
        else
          { result := Except.error RouteError.noProvidersAvailable
            attemptsMade := 1, dispatchAttempts := [], circuitSkips := []
            sleeps := [], cleared := none, finalFailed := fp }
      | some p =>
        if is_circuit_broken fp circuit_breaker_timeout p (env.timeAt a) then
          let o := route_loop env fuel a lastError fp
          { o with attemptsMade := o.attemptsMade + 1, circuitSkips := a :: o.circuitSkips }
        else if !env.clientExists p then
          let o := route_loop env fuel a lastError fp
          { o with attemptsMade := o.attemptsMade + 1 }
        else
          match env.dispatch a with
          | DispatchOutcome.ok prov content =>
            { result := Except.ok (DispatchOutcome.ok prov content)
              attemptsMade := 1, dispatchAttempts := [a], circuitSkips := []
              sleeps := [], cleared := some p, finalFailed := alistErase fp p }
          | DispatchOutcome.error msg =>
            let fp := update_circuit_breaker fp p (env.timeAt a)
            if a < retry_attempts then
              let o := route_loop env fuel a (some msg) fp
              { o with attemptsMade := o.attemptsMade + 1,
                       dispatchAttempts := a :: o.dispatchAttempts,
                       sleeps := min ((a : ℚ) * (1/2)) 2 :: o.sleeps }
            else
              let o := route_loop env fuel a (some msg) fp
              { o with attemptsMade := o.attemptsMade + 1,
                       dispatchAttempts := a :: o.dispatchAttempts }
    else
      { result := Except.error (RouteError.allProvidersFailed lastError)
        attemptsMade := 0, dispatchAttempts := [], circuitSkips := []
        sleeps := [], cleared := none, finalFailed := fp }

/-- `LoadBalancerManager.route_request`: run the attempt loop from
`attempts = 0`, `last_error = None`, on the current circuit-breaker
map. -/
def route_request (env : RouterEnv) (failedProviders : List (String × ℚ)) :
    RouteOutcome :=
  route_loop env retry_attempts 0 none failedProviders

/-! ### Example fixtures (concrete inputs used by the theorems below) -/

/-- A provider client with a perfect success record (100/100, zero
latency). -/
def demoClientA : ClientStats :=
  { provider_name := "a", total_requests := 100, successful_requests := 100,
    average_latency := 0 }

/-- A provider client whose every call failed (0/100, zero latency). -/
def demoClientB : ClientStats :=
  { provider_name := "b", total_requests := 100, failed_requests := 100,
    average_latency := 0 }

/-- A two-provider registry: `"a"` maps to the perfect client, every
other name to the failing one. -/
def demoClients : String → Option ClientStats :=
  fun q => if q = "a" then some demoClientA else some demoClientB

/-! ### Window helper lemmas -/

theorem dropWhile_dropWhile {α : Type} (p : α → Bool) (l : List α) :
    (l.dropWhile p).dropWhile p = l.dropWhile p := by
  induction l with
  | nil => rfl
  | cons x t ih =>
    by_cases h : p x
    · simp [List.dropWhile_cons, h, ih]
    · simp [List.dropWhile_cons, h]

theorem pruneWindow_idem (c : ℚ) (w : List Entry) :
    pruneWindow c (pruneWindow c w) = pruneWindow c w :=
  dropWhile_dropWhile _ w

theorem pruneWindow_sublist (c : ℚ) (w : List Entry) :
    List.Sublist (pruneWindow c w) w :=
  List.dropWhile_sublist _

/-! ### Projection lemmas for the dimension checks -/

@[simp] theorem check_requests_per_minute_snd (s : KeyState) (v : ℕ) (now : ℚ) :
    (check_requests_per_minute s v now).2 =
      { s with reqMinute := pruneWindow (now - 60) s.reqMinute } := rfl

@[simp] theorem check_requests_per_hour_snd (s : KeyState) (v : ℕ) (now : ℚ) :
    (check_requests_per_hour s v now).2 =
      { s with reqHour := pruneWindow (now - 3600) s.reqHour } := rfl

@[simp] theorem check_requests_per_day_snd (s : KeyState) (v : ℕ) (now : ℚ) :
    (check_requests_per_day s v now).2 = s := rfl

@[simp] theorem check_requests_per_month_snd (s : KeyState) (v : ℕ) (now : ℚ) :
    (check_requests_per_month s v now).2 = s := rfl

@[simp] theorem check_tokens_per_minute_snd (s : KeyState) (v : ℕ) (now : ℚ) (t : ℕ) :
    (check_tokens_per_minute s v now t).2 =
      { s with tokMinute := pruneWindow (now - 60) s.tokMinute } := rfl

@[simp] theorem check_tokens_per_hour_snd (s : KeyState) (v : ℕ) (now : ℚ) (t : ℕ) :
    (check_tokens_per_hour s v now t).2 =
      { s with tokHour := pruneWindow (now - 3600) s.tokHour } := rfl

@[simp] theorem check_tokens_per_day_snd (s : KeyState) (v : ℕ) (now : ℚ) (t : ℕ) :
    (check_tokens_per_day s v now t).2 = s := rfl

@[simp] theorem check_tokens_per_month_snd (s : KeyState) (v : ℕ) (now : ℚ) (t : ℕ) :
    (check_tokens_per_month s v now t).2 = s := rfl

theorem check_requests_per_minute_fst (s : KeyState) (v : ℕ) (now : ℚ) :
    (check_requests_per_minute s v now).1 =
      (if (pruneWindow (now - 60) s.reqMinute).length ≥ v then
        (false, CheckInfo.fail (pruneWindow (now - 60) s.reqMinute).length v ((now - 60) + 60)
          (match pruneWindow (now - 60) s.reqMinute with
            | [] => 1
            | e :: _ => pyInt (e.timestamp + 60 - now)))
       else (true, CheckInfo.pass (pruneWindow (now - 60) s.reqMinute).length v
          ((v : ℤ) - (pruneWindow (now - 60) s.reqMinute).length))) := rfl

theorem check_requests_per_hour_fst (s : KeyState) (v : ℕ) (now : ℚ) :
    (check_requests_per_hour s v now).1 =
      (if (pruneWindow (now - 3600) s.reqHour).length ≥ v then
        (false, CheckInfo.fail (pruneWindow (now - 3600) s.reqHour).length v ((now - 3600) + 3600)
          (match pruneWindow (now - 3600) s.reqHour with
            | [] => 60
            | e :: _ => pyInt (e.timestamp + 3600 - now)))
       else (true, CheckInfo.pass (pruneWindow (now - 3600) s.reqHour).length v
          ((v : ℤ) - (pruneWindow (now - 3600) s.reqHour).length))) := rfl

theorem check_tokens_per_minute_fst (s : KeyState) (v : ℕ) (now : ℚ) (t : ℕ) :
    (check_tokens_per_minute s v now t).1 =
      (if windowTokens (pruneWindow (now - 60) s.tokMinute) + t > v then
        (false, CheckInfo.fail (windowTokens (pruneWindow (now - 60) s.tokMinute)) v ((now - 60) + 60)
          (match pruneWindow (now - 60) s.tokMinute with
            | [] => 1
            | e :: _ => pyInt (e.timestamp + 60 - now)))
       else (true, CheckInfo.pass (windowTokens (pruneWindow (now - 60) s.tokMinute)) v
          ((v : ℤ) - windowTokens (pruneWindow (now - 60) s.tokMinute)))) := rfl

theorem check_tokens_per_hour_fst (s : KeyState) (v : ℕ) (now : ℚ) (t : ℕ) :
    (check_tokens_per_hour s v now t).1 =
      (if windowTokens (pruneWindow (now - 3600) s.tokHour) + t > v then
        (false, CheckInfo.fail (windowTokens (pruneWindow (now - 3600) s.tokHour)) v ((now - 3600) + 3600)
          (match pruneWindow (now - 3600) s.tokHour with
            | [] => 60
            | e :: _ => pyInt (e.timestamp + 3600 - now)))
       else (true, CheckInfo.pass (windowTokens (pruneWindow (now - 3600) s.tokHour)) v
          ((v : ℤ) - windowTokens (pruneWindow (now - 3600) s.tokHour)))) := rfl

theorem check_requests_per_day_fst (s : KeyState) (v : ℕ) (now : ℚ) :
    (check_requests_per_day s v now).1 =
      (if s.dailyRequests ≥ v then
        (false, CheckInfo.fail s.dailyRequests v (((dayIndex now + 1) * 86400 : ℤ) : ℚ)
          (pyInt ((((dayIndex now + 1) * 86400 : ℤ) : ℚ) - now)))
       else (true, CheckInfo.pass s.dailyRequests v ((v : ℤ) - s.dailyRequests))) := rfl

theorem check_requests_per_month_fst (s : KeyState) (v : ℕ) (now : ℚ) :
    (check_requests_per_month s v now).1 =
      (if s.monthlyRequests ≥ v then
        (false, CheckInfo.fail s.monthlyRequests v
          (mktimeMonthStart (civilFromDays (qfloor (now / 86400))).1
            ((civilFromDays (qfloor (now / 86400))).2.1 + 1))
          (pyInt (mktimeMonthStart (civilFromDays (qfloor (now / 86400))).1
            ((civilFromDays (qfloor (now / 86400))).2.1 + 1) - now)))
       else (true, CheckInfo.pass s.monthlyRequests v ((v : ℤ) - s.monthlyRequests))) := rfl

theorem check_tokens_per_day_fst (s : KeyState) (v : ℕ) (now : ℚ) (t : ℕ) :
    (check_tokens_per_day s v now t).1 =
      (if s.dailyTokens + t > v then
        (false, CheckInfo.fail s.dailyTokens v (((dayIndex now + 1) * 86400 : ℤ) : ℚ)
          (pyInt ((((dayIndex now + 1) * 86400 : ℤ) : ℚ) - now)))
       else (true, CheckInfo.pass s.dailyTokens v ((v : ℤ) - s.dailyTokens))) := rfl

theorem check_tokens_per_month_fst (s : KeyState) (v : ℕ) (now : ℚ) (t : ℕ) :
    (check_tokens_per_month s v now t).1 =
      (if s.monthlyTokens + t > v then
        (false, CheckInfo.fail s.monthlyTokens v
          (mktimeMonthStart (civilFromDays (qfloor (now / 86400))).1
            ((civilFromDays (qfloor (now / 86400))).2.1 + 1))
          (pyInt (mktimeMonthStart (civilFromDays (qfloor (now / 86400))).1
            ((civilFromDays (qfloor (now / 86400))).2.1 + 1) - now)))
       else (true, CheckInfo.pass s.monthlyTokens v ((v : ℤ) - s.monthlyTokens))) := rfl

/-! ### Periodic-counter lemmas -/

theorem upc_reqMinute (s : KeyState) (now : ℚ) :
    (update_periodic_counters s now).reqMinute = s.reqMinute := by
  unfold update_periodic_counters; dsimp only; split_ifs <;> rfl

theorem upc_reqHour (s : KeyState) (now : ℚ) :
    (update_periodic_counters s now).reqHour = s.reqHour := by
  unfold update_periodic_counters; dsimp only; split_ifs <;> rfl

theorem upc_tokMinute (s : KeyState) (now : ℚ) :
    (update_periodic_counters s now).tokMinute = s.tokMinute := by
  unfold update_periodic_counters; dsimp only; split_ifs <;> rfl

theorem upc_tokHour (s : KeyState) (now : ℚ) :
    (update_periodic_counters s now).tokHour = s.tokHour := by
  unfold update_periodic_counters; dsimp only; split_ifs <;> rfl

theorem upc_lastResetDaily (s : KeyState) (now : ℚ) :
    (update_periodic_counters s now).lastResetDaily = dayIndex now := by
  unfold update_periodic_counters; dsimp only; split_ifs <;> simp_all

theorem upc_lastResetMonthly (s : KeyState) (now : ℚ) :
    (update_periodic_counters s now).lastResetMonthly = monthIndex now := by
  unfold update_periodic_counters; dsimp only; split_ifs <;> simp_all

theorem upc_dailyRequests_le (s : KeyState) (now : ℚ) :
    (update_periodic_counters s now).dailyRequests ≤ s.dailyRequests := by
  unfold update_periodic_counters; dsimp only; split_ifs <;> simp

theorem upc_dailyTokens_le (s : KeyState) (now : ℚ) :
    (update_periodic_counters s now).dailyTokens ≤ s.dailyTokens := by
  unfold update_periodic_counters; dsimp only; split_ifs <;> simp

theorem upc_monthlyRequests_le (s : KeyState) (now : ℚ) :
    (update_periodic_counters s now).monthlyRequests ≤ s.monthlyRequests := by
  unfold update_periodic_counters; dsimp only; split_ifs <;> simp

theorem upc_monthlyTokens_le (s : KeyState) (now : ℚ) :
    (update_periodic_counters s now).monthlyTokens ≤ s.monthlyTokens := by
  unfold update_periodic_counters; dsimp only; split_ifs <;> simp

theorem upc_fix (s : KeyState) (now : ℚ) (h1 : s.lastResetDaily = dayIndex now)
    (h2 : s.lastResetMonthly = monthIndex now) :
    update_periodic_counters s now = s := by
  unfold update_periodic_counters
  simp [dayIndex, monthIndex] at h1 h2 ⊢
  simp [h1, h2]

/-! ### State characterization of the check phase -/

theorem ite_snd {α β : Type} (c : Prop) [Decidable c] (a b : α × β) :
    (if c then a else b).2 = if c then a.2 else b.2 := apply_ite Prod.snd c a b

theorem ite_fst {α β : Type} (c : Prop) [Decidable c] (a b : α × β) :
    (if c then a else b).1 = if c then a.1 else b.1 := apply_ite Prod.fst c a b

theorem ite_field {α β : Type} (f : α → β) (c : Prop) [Decidable c] (a b : α) :
    f (if c then a else b) = if c then f a else f b := apply_ite f c a b

theorem run_checks_reqMinute (s : KeyState) (limit : RateLimit) (now : ℚ) :
    (run_checks s limit now).2.reqMinute = pruneWindow (now - 60) s.reqMinute := by
  simp only [run_checks, ite_snd, check_requests_per_minute_snd, check_requests_per_hour_snd,
    check_requests_per_day_snd, check_requests_per_month_snd, check_tokens_per_minute_snd,
    check_tokens_per_hour_snd, check_tokens_per_day_snd, check_tokens_per_month_snd,
    ite_field KeyState.reqMinute, ite_self]

theorem run_checks_reqHour (s : KeyState) (limit : RateLimit) (now : ℚ) :
    (run_checks s limit now).2.reqHour =
      (if truthy limit.requests_per_hour then pruneWindow (now - 3600) s.reqHour
       else s.reqHour) := by
  simp only [run_checks, ite_snd, check_requests_per_minute_snd, check_requests_per_hour_snd,
    check_requests_per_day_snd, check_requests_per_month_snd, check_tokens_per_minute_snd,
    check_tokens_per_hour_snd, check_tokens_per_day_snd, check_tokens_per_month_snd,
    ite_field KeyState.reqHour, ite_self]

theorem run_checks_tokMinute (s : KeyState) (limit : RateLimit) (now : ℚ) :
    (run_checks s limit now).2.tokMinute =
      (if truthy limit.tokens_per_minute then pruneWindow (now - 60) s.tokMinute
       else s.tokMinute) := by
  simp only [run_checks, ite_snd, check_requests_per_minute_snd, check_requests_per_hour_snd,
    check_requests_per_day_snd, check_requests_per_month_snd, check_tokens_per_minute_snd,
    check_tokens_per_hour_snd, check_tokens_per_day_snd, check_tokens_per_month_snd,
    ite_field KeyState.tokMinute, ite_self]

theorem run_checks_tokHour (s : KeyState) (limit : RateLimit) (now : ℚ) :
    (run_checks s limit now).2.tokHour =
      (if truthy limit.tokens_per_hour then pruneWindow (now - 3600) s.tokHour
       else s.tokHour) := by
  simp only [run_checks, ite_snd, check_requests_per_minute_snd, check_requests_per_hour_snd,
    check_requests_per_day_snd, check_requests_per_month_snd, check_tokens_per_minute_snd,
    check_tokens_per_hour_snd, check_tokens_per_day_snd, check_tokens_per_month_snd,
    ite_field KeyState.tokHour, ite_self]

theorem run_checks_dailyRequests (s : KeyState) (limit : RateLimit) (now : ℚ) :
    (run_checks s limit now).2.dailyRequests = s.dailyRequests := by
  simp only [run_checks, ite_snd, check_requests_per_minute_snd, check_requests_per_hour_snd,
    check_requests_per_day_snd, check_requests_per_month_snd, check_tokens_per_minute_snd,
    check_tokens_per_hour_snd, check_tokens_per_day_snd, check_tokens_per_month_snd,
    ite_field KeyState.dailyRequests, ite_self]

theorem run_checks_dailyTokens (s : KeyState) (limit : RateLimit) (now : ℚ) :
    (run_checks s limit now).2.dailyTokens = s.dailyTokens := by
  simp only [run_checks, ite_snd, check_requests_per_minute_snd, check_requests_per_hour_snd,
    check_requests_per_day_snd, check_requests_per_month_snd, check_tokens_per_minute_snd,
    check_tokens_per_hour_snd, check_tokens_per_day_snd, check_tokens_per_month_snd,
    ite_field KeyState.dailyTokens, ite_self]

theorem run_checks_monthlyRequests (s : KeyState) (limit : RateLimit) (now : ℚ) :
    (run_checks s limit now).2.monthlyRequests = s.monthlyRequests := by
  simp only [run_checks, ite_snd, check_requests_per_minute_snd, check_requests_per_hour_snd,
    check_requests_per_day_snd, check_requests_per_month_snd, check_tokens_per_minute_snd,
    check_tokens_per_hour_snd, check_tokens_per_day_snd, check_tokens_per_month_snd,
    ite_field KeyState.monthlyRequests, ite_self]

theorem run_checks_monthlyTokens (s : KeyState) (limit : RateLimit) (now : ℚ) :
    (run_checks s limit now).2.monthlyTokens = s.monthlyTokens := by
  simp only [run_checks, ite_snd, check_requests_per_minute_snd, check_requests_per_hour_snd,
    check_requests_per_day_snd, check_requests_per_month_snd, check_tokens_per_minute_snd,
    check_tokens_per_hour_snd, check_tokens_per_day_snd, check_tokens_per_month_snd,
    ite_field KeyState.monthlyTokens, ite_self]

theorem run_checks_lastResetDaily (s : KeyState) (limit : RateLimit) (now : ℚ) :
    (run_checks s limit now).2.lastResetDaily = s.lastResetDaily := by
  simp only [run_checks, ite_snd, check_requests_per_minute_snd, check_requests_per_hour_snd,
    check_requests_per_day_snd, check_requests_per_month_snd, check_tokens_per_minute_snd,
    check_tokens_per_hour_snd, check_tokens_per_day_snd, check_tokens_per_month_snd,
    ite_field KeyState.lastResetDaily, ite_self]

theorem run_checks_lastResetMonthly (s : KeyState) (limit : RateLimit) (now : ℚ) :
    (run_checks s limit now).2.lastResetMonthly = s.lastResetMonthly := by
  simp only [run_checks, ite_snd, check_requests_per_minute_snd, check_requests_per_hour_snd,
    check_requests_per_day_snd, check_requests_per_month_snd, check_tokens_per_minute_snd,
    check_tokens_per_hour_snd, check_tokens_per_day_snd, check_tokens_per_month_snd,
    ite_field KeyState.lastResetMonthly, ite_self]

-- Running the check phase a second time on its own output state, at
-- the same instant, reproduces the same check results and leaves the
-- state fixed: pruning is idempotent and nothing else changed.
set_option maxHeartbeats 1000000 in
theorem run_checks_again (s : KeyState) (limit : RateLimit) (now : ℚ) :
    run_checks ((run_checks s limit now).2) limit now
      = ((run_checks s limit now).1, (run_checks s limit now).2) := by
  by_cases g2 : truthy limit.requests_per_hour <;>
  by_cases g5 : truthy limit.tokens_per_minute <;>
  by_cases g6 : truthy limit.tokens_per_hour <;>
  by_cases g3 : truthy limit.requests_per_day <;>
  by_cases g4 : truthy limit.requests_per_month <;>
  by_cases g7 : truthy limit.tokens_per_day <;>
  by_cases g8 : truthy limit.tokens_per_month <;>
  simp [run_checks, g2, g3, g4, g5, g6, g7, g8,
    check_requests_per_minute_fst, check_requests_per_hour_fst,
    check_tokens_per_minute_fst, check_tokens_per_hour_fst,
    check_requests_per_day_fst, check_requests_per_month_fst,
    check_tokens_per_day_fst, check_tokens_per_month_fst,
    pruneWindow_idem]

/-! ### Shape lemmas for `is_allowed` -/

@[simp] theorem AllowResult_ok_allowed (l : List (String × CheckInfo)) :
    (AllowResult.allowed l).ok = true := rfl

@[simp] theorem AllowResult_ok_denied (l : List String) (i : CheckInfo) :
    (AllowResult.denied l i).ok = false := rfl

@[simp] theorem record_usage_zero (s : KeyState) (now : ℚ) :
    record_usage s now 0 =
      { s with reqMinute := s.reqMinute ++ [⟨now, 0⟩],
               reqHour := s.reqHour ++ [⟨now, 0⟩],
               dailyRequests := s.dailyRequests + 1,
               monthlyRequests := s.monthlyRequests + 1 } := by
  simp [record_usage]

theorem is_allowed_cases (s : KeyState) (limit : RateLimit) (now : ℚ) :
    ((run_checks (update_periodic_counters s now) limit now).1.filter (fun c => !c.2.1) = []
      ∧ is_allowed s limit now =
        (AllowResult.allowed ((run_checks (update_periodic_counters s now) limit now).1.map
            (fun c => (c.1, c.2.2))),
          record_usage ((run_checks (update_periodic_counters s now) limit now).2) now 0))
    ∨ (∃ f t, (run_checks (update_periodic_counters s now) limit now).1.filter
          (fun c => !c.2.1) = f :: t
        ∧ is_allowed s limit now =
          (AllowResult.denied ((f :: t).map (fun c => c.1)) f.2.2,
            (run_checks (update_periodic_counters s now) limit now).2)) := by
  cases hf : (run_checks (update_periodic_counters s now) limit now).1.filter
      (fun c => !c.2.1) with
  | nil => exact Or.inl ⟨rfl, by simp [is_allowed, hf]⟩
  | cons f t => exact Or.inr ⟨f, t, rfl, by simp [is_allowed, hf]⟩

/-- After a denial, repeating `is_allowed` at the same instant returns
the same denial and leaves the state unchanged. -/
theorem is_allowed_deny_again (s : KeyState) (limit : RateLimit) (now : ℚ)
    (h : (is_allowed s limit now).1.ok = false) :
    is_allowed ((is_allowed s limit now).2) limit now = is_allowed s limit now := by
  rcases is_allowed_cases s limit now with ⟨hf, heq⟩ | ⟨f, t, hf, heq⟩
  · rw [heq] at h; simp at h
  · rw [heq]
    have hupc : update_periodic_counters
        ((run_checks (update_periodic_counters s now) limit now).2) now
        = (run_checks (update_periodic_counters s now) limit now).2 :=
      upc_fix _ _
        (by rw [run_checks_lastResetDaily, upc_lastResetDaily])
        (by rw [run_checks_lastResetMonthly, upc_lastResetMonthly])
    have hrc2 := run_checks_again (update_periodic_counters s now) limit now
    simp only [is_allowed, hupc, hrc2, hf]

/-! ### Specialization to a requests-per-minute-only limit -/

theorem pruneWindow_keep (c : ℚ) (e : Entry) (l : List Entry)
    (h : ¬ e.timestamp < c) : pruneWindow c (e :: l) = e :: l := by
  simp [pruneWindow, List.dropWhile_cons, h]

theorem run_checks_rpm_only (s : KeyState) (now : ℚ) (rpm : ℕ) :
    run_checks s { requests_per_minute := rpm } now
      = ([("requests_per_minute", (check_requests_per_minute s rpm now).1)],
         { s with reqMinute := pruneWindow (now - 60) s.reqMinute }) := by
  simp [run_checks, truthy]

theorem is_allowed_rpm_only_pass (s : KeyState) (now : ℚ) (rpm : ℕ)
    (hc : ¬ (pruneWindow (now - 60) (update_periodic_counters s now).reqMinute).length ≥ rpm) :
    is_allowed s { requests_per_minute := rpm } now
      = (AllowResult.allowed [("requests_per_minute",
          CheckInfo.pass (pruneWindow (now - 60) (update_periodic_counters s now).reqMinute).length
            rpm ((rpm : ℤ) - (pruneWindow (now - 60) (update_periodic_counters s now).reqMinute).length))],
        record_usage
          { update_periodic_counters s now with
            reqMinute := pruneWindow (now - 60) (update_periodic_counters s now).reqMinute }
          now 0) := by
  simp [is_allowed, run_checks_rpm_only, check_requests_per_minute_fst, hc]

theorem is_allowed_rpm_only_deny (s : KeyState) (now : ℚ) (rpm : ℕ)
    (hc : (pruneWindow (now - 60) (update_periodic_counters s now).reqMinute).length ≥ rpm) :
    is_allowed s { requests_per_minute := rpm } now
      = (AllowResult.denied ["requests_per_minute"]
          (CheckInfo.fail (pruneWindow (now - 60) (update_periodic_counters s now).reqMinute).length
            rpm ((now - 60) + 60)
            (match pruneWindow (now - 60) (update_periodic_counters s now).reqMinute with
              | [] => 1
              | e :: _ => pyInt (e.timestamp + 60 - now))),
        { update_periodic_counters s now with
          reqMinute := pruneWindow (now - 60) (update_periodic_counters s now).reqMinute }) := by
  simp [is_allowed, run_checks_rpm_only, check_requests_per_minute_fst, hc]

/-- Effects of a passing `is_allowed` on the key state: timestamps
appended to the request windows, day/month request accumulators
incremented, token windows at most pruned and token accumulators
unchanged (recording runs with the default `tokens_used = 0`). -/
theorem is_allowed_pass_effects (s : KeyState) (limit : RateLimit) (now : ℚ)
    (h : (is_allowed s limit now).1.ok = true) :
    (is_allowed s limit now).2.reqMinute = pruneWindow (now - 60) s.reqMinute ++ [⟨now, 0⟩]
    ∧ (is_allowed s limit now).2.reqHour
      = (if truthy limit.requests_per_hour then pruneWindow (now - 3600) s.reqHour
         else s.reqHour) ++ [⟨now, 0⟩]
    ∧ (is_allowed s limit now).2.dailyRequests
      = (update_periodic_counters s now).dailyRequests + 1
    ∧ (is_allowed s limit now).2.monthlyRequests
      = (update_periodic_counters s now).monthlyRequests + 1
    ∧ (is_allowed s limit now).2.tokMinute
      = (if truthy limit.tokens_per_minute then pruneWindow (now - 60) s.tokMinute
         else s.tokMinute)
    ∧ (is_allowed s limit now).2.tokHour
      = (if truthy limit.tokens_per_hour then pruneWindow (now - 3600) s.tokHour
         else s.tokHour)
    ∧ (is_allowed s limit now).2.dailyTokens
      = (update_periodic_counters s now).dailyTokens
    ∧ (is_allowed s limit now).2.monthlyTokens
      = (update_periodic_counters s now).monthlyTokens := by
  rcases is_allowed_cases s limit now with ⟨hf, heq⟩ | ⟨f, t, hf, heq⟩
  · rw [heq]
    refine ⟨?_, ?_, ?_, ?_, ?_, ?_, ?_, ?_⟩ <;>
      simp [run_checks_reqMinute, run_checks_reqHour, run_checks_dailyRequests,
        run_checks_monthlyRequests, run_checks_tokMinute, run_checks_tokHour,
        run_checks_dailyTokens, run_checks_monthlyTokens,
        upc_reqMinute, upc_reqHour, upc_tokMinute, upc_tokHour]
  · rw [heq] at h; simp at h

/-! ## Claim theorems -/

/-- C1: `is_allowed` records usage iff every configured dimension
passes.  When it passes, the current timestamp is appended to both
request queues and the day/month request accumulators increment by 1
(relative to their post-rollover values).  When any dimension denies,
every queue is at most pruned (a sublist of the old queue, so no entry
is gained) and no accumulator increases; moreover repeating the call at
the same instant returns the same denial with the same state, so
repeated admits without the passage of time or a reset can never turn
that denial into a pass. -/
theorem C1_record_iff_all_pass (s : KeyState) (limit : RateLimit) (now : ℚ) :
    (((is_allowed s limit now).1.ok = true) →
      ((is_allowed s limit now).2.reqMinute
          = pruneWindow (now - 60) s.reqMinute ++ [⟨now, 0⟩]
        ∧ (is_allowed s limit now).2.reqHour
          = (if truthy limit.requests_per_hour then
              pruneWindow (now - 3600) s.reqHour else s.reqHour) ++ [⟨now, 0⟩]
        ∧ (is_allowed s limit now).2.dailyRequests
          = (update_periodic_counters s now).dailyRequests + 1
        ∧ (is_allowed s limit now).2.monthlyRequests
          = (update_periodic_counters s now).monthlyRequests + 1))
    ∧ (((is_allowed s limit now).1.ok = false) →
      (List.Sublist ((is_allowed s limit now).2.reqMinute) s.reqMinute
        ∧ List.Sublist ((is_allowed s limit now).2.reqHour) s.reqHour
        ∧ List.Sublist ((is_allowed s limit now).2.tokMinute) s.tokMinute
        ∧ List.Sublist ((is_allowed s limit now).2.tokHour) s.tokHour
        ∧ (is_allowed s limit now).2.dailyRequests ≤ s.dailyRequests
        ∧ (is_allowed s limit now).2.monthlyRequests ≤ s.monthlyRequests
        ∧ (is_allowed s limit now).2.dailyTokens ≤ s.dailyTokens
        ∧ (is_allowed s limit now).2.monthlyTokens ≤ s.monthlyTokens
        ∧ is_allowed ((is_allowed s limit now).2) limit now = is_allowed s limit now)) := by
  constructor
  · intro h
    rcases is_allowed_cases s limit now with ⟨hf, heq⟩ | ⟨f, t, hf, heq⟩
    · rw [heq]
      refine ⟨?_, ?_, ?_, ?_⟩ <;>
        simp [run_checks_reqMinute, run_checks_reqHour, run_checks_dailyRequests,
          run_checks_monthlyRequests, upc_reqMinute, upc_reqHour]
    · rw [heq] at h; simp at h
  · intro h
    rcases is_allowed_cases s limit now with ⟨hf, heq⟩ | ⟨f, t, hf, heq⟩
    · rw [heq] at h; simp at h
    · have hstate : (is_allowed s limit now).2
          = (run_checks (update_periodic_counters s now) limit now).2 := by
        rw [heq]
      refine ⟨?_, ?_, ?_, ?_, ?_, ?_, ?_, ?_, ?_⟩
      · rw [hstate, run_checks_reqMinute, upc_reqMinute]; exact pruneWindow_sublist _ _
      · rw [hstate, run_checks_reqHour, upc_reqHour]
        by_cases g : truthy limit.requests_per_hour
        · simp only [g, if_true]; exact pruneWindow_sublist _ _
        · simp only [g, if_false]; exact List.Sublist.refl _
      · rw [hstate, run_checks_tokMinute, upc_tokMinute]
        by_cases g : truthy limit.tokens_per_minute
        · simp only [g, if_true]; exact pruneWindow_sublist _ _
        · simp only [g, if_false]; exact List.Sublist.refl _
      · rw [hstate, run_checks_tokHour, upc_tokHour]
        by_cases g : truthy limit.tokens_per_hour
        · simp only [g, if_true]; exact pruneWindow_sublist _ _
        · simp only [g, if_false]; exact List.Sublist.refl _
      · rw [hstate, run_checks_dailyRequests]; exact upc_dailyRequests_le s now
      · rw [hstate, run_checks_monthlyRequests]; exact upc_monthlyRequests_le s now
      · rw [hstate, run_checks_dailyTokens]; exact upc_dailyTokens_le s now
      · rw [hstate, run_checks_monthlyTokens]; exact upc_monthlyTokens_le s now
      · exact is_allowed_deny_again s limit now h

/-- Witness for C1: with `requests_per_minute = 1`, from the empty
state at time 0 a passing admit appends the timestamp and bumps the
accumulators; from a full minute window the admit is denied, the state
only shrinks, and repeating the call changes nothing. -/
theorem C1_record_iff_all_pass_witness :
    (((is_allowed {} { requests_per_minute := 1 } 0).2.reqMinute
        = [{ timestamp := 0, tokens := 0 }]
      ∧ (is_allowed {} { requests_per_minute := 1 } 0).2.reqHour
        = [{ timestamp := 0, tokens := 0 }]
      ∧ (is_allowed {} { requests_per_minute := 1 } 0).2.dailyRequests
        = (update_periodic_counters {} 0).dailyRequests + 1
      ∧ (is_allowed {} { requests_per_minute := 1 } 0).2.monthlyRequests
        = (update_periodic_counters {} 0).monthlyRequests + 1)
    ∧ (List.Sublist
        ((is_allowed
          { reqMinute := [{ timestamp := 0, tokens := 0 }],
            reqHour := [{ timestamp := 0, tokens := 0 }],
            dailyRequests := 1, monthlyRequests := 1, lastResetMonthly := 23641 }
          { requests_per_minute := 1 } 0).2.reqMinute)
        [{ timestamp := 0, tokens := 0 }]
      ∧ List.Sublist
        ((is_allowed
          { reqMinute := [{ timestamp := 0, tokens := 0 }],
            reqHour := [{ timestamp := 0, tokens := 0 }],
            dailyRequests := 1, monthlyRequests := 1, lastResetMonthly := 23641 }
          { requests_per_minute := 1 } 0).2.reqHour)
        [{ timestamp := 0, tokens := 0 }]
      ∧ List.Sublist
        ((is_allowed
          { reqMinute := [{ timestamp := 0, tokens := 0 }],
            reqHour := [{ timestamp := 0, tokens := 0 }],
            dailyRequests := 1, monthlyRequests := 1, lastResetMonthly := 23641 }
          { requests_per_minute := 1 } 0).2.tokMinute) []
      ∧ List.Sublist
        ((is_allowed
          { reqMinute := [{ timestamp := 0, tokens := 0 }],
            reqHour := [{ timestamp := 0, tokens := 0 }],
            dailyRequests := 1, monthlyRequests := 1, lastResetMonthly := 23641 }
          { requests_per_minute := 1 } 0).2.tokHour) []
      ∧ (is_allowed
          { reqMinute := [{ timestamp := 0, tokens := 0 }],
            reqHour := [{ timestamp := 0, tokens := 0 }],
            dailyRequests := 1, monthlyRequests := 1, lastResetMonthly := 23641 }
          { requests_per_minute := 1 } 0).2.dailyRequests ≤ 1
      ∧ (is_allowed
          { reqMinute := [{ timestamp := 0, tokens := 0 }],
            reqHour := [{ timestamp := 0, tokens := 0 }],
            dailyRequests := 1, monthlyRequests := 1, lastResetMonthly := 23641 }
          { requests_per_minute := 1 } 0).2.monthlyRequests ≤ 1
      ∧ (is_allowed
          { reqMinute := [{ timestamp := 0, tokens := 0 }],
            reqHour := [{ timestamp := 0, tokens := 0 }],
            dailyRequests := 1, monthlyRequests := 1, lastResetMonthly := 23641 }
          { requests_per_minute := 1 } 0).2.dailyTokens ≤ 0
      ∧ (is_allowed
          { reqMinute := [{ timestamp := 0, tokens := 0 }],
            reqHour := [{ timestamp := 0, tokens := 0 }],
            dailyRequests := 1, monthlyRequests := 1, lastResetMonthly := 23641 }
          { requests_per_minute := 1 } 0).2.monthlyTokens ≤ 0
      ∧ is_allowed
          ((is_allowed
            { reqMinute := [{ timestamp := 0, tokens := 0 }],
              reqHour := [{ timestamp := 0, tokens := 0 }],
              dailyRequests := 1, monthlyRequests := 1, lastResetMonthly := 23641 }
            { requests_per_minute := 1 } 0).2) { requests_per_minute := 1 } 0
        = is_allowed
            { reqMinute := [{ timestamp := 0, tokens := 0 }],
              reqHour := [{ timestamp := 0, tokens := 0 }],
              dailyRequests := 1, monthlyRequests := 1, lastResetMonthly := 23641 }
            { requests_per_minute := 1 } 0)) :=
  ⟨(C1_record_iff_all_pass {} { requests_per_minute := 1 } 0).1 (by
      have hd : dayIndex 0 = 0 := by simp [dayIndex, qfloor]
      have hm : monthIndex 0 = 23641 := by simp [monthIndex, qfloor]; decide
      simp [is_allowed, run_checks, check_requests_per_minute, truthy,
        update_periodic_counters, hd, hm, pruneWindow]),
   (C1_record_iff_all_pass
      { reqMinute := [{ timestamp := 0, tokens := 0 }],
        reqHour := [{ timestamp := 0, tokens := 0 }],
        dailyRequests := 1, monthlyRequests := 1, lastResetMonthly := 23641 }
      { requests_per_minute := 1 } 0).2 (by
      have hd : dayIndex 0 = 0 := by simp [dayIndex, qfloor]
      have hm : monthIndex 0 = 23641 := by simp [monthIndex, qfloor]; decide
      simp [is_allowed, run_checks, check_requests_per_minute, truthy,
        update_periodic_counters, hd, hm, pruneWindow, List.dropWhile])⟩

/-- C8: calendar rollover in `_update_periodic_counters` clears exactly
the accumulators of the dimension whose boundary was crossed.  A day
index change zeroes only the daily accumulators, a (year×12+month)
change zeroes only the monthly accumulators, an unchanged index leaves
that dimension's accumulators intact, and the request/token windows are
never touched.  In particular (last conjunct) from day-counter 5 just
before midnight of 1970-01-02 (same month), the first update after
midnight sees day-counter 0 and month-counter still 5. -/
theorem C8_rollover_resets_exactly_crossed_dimension (s : KeyState) (now : ℚ) :
    ((s.lastResetDaily ≠ dayIndex now →
        (update_periodic_counters s now).dailyRequests = 0
        ∧ (update_periodic_counters s now).dailyTokens = 0)
      ∧ (s.lastResetDaily = dayIndex now →
        (update_periodic_counters s now).dailyRequests = s.dailyRequests
        ∧ (update_periodic_counters s now).dailyTokens = s.dailyTokens)
      ∧ (s.lastResetMonthly ≠ monthIndex now →
        (update_periodic_counters s now).monthlyRequests = 0
        ∧ (update_periodic_counters s now).monthlyTokens = 0)
      ∧ (s.lastResetMonthly = monthIndex now →
        (update_periodic_counters s now).monthlyRequests = s.monthlyRequests
        ∧ (update_periodic_counters s now).monthlyTokens = s.monthlyTokens)
      ∧ (update_periodic_counters s now).reqMinute = s.reqMinute
      ∧ (update_periodic_counters s now).reqHour = s.reqHour
      ∧ (update_periodic_counters s now).tokMinute = s.tokMinute
      ∧ (update_periodic_counters s now).tokHour = s.tokHour
      ∧ ((update_periodic_counters
            { dailyRequests := 5, monthlyRequests := 5, lastResetMonthly := 23641 }
            86400).dailyRequests = 0
        ∧ (update_periodic_counters
            { dailyRequests := 5, monthlyRequests := 5, lastResetMonthly := 23641 }
            86400).monthlyRequests = 5)) := by
  have hd : dayIndex (86400 : ℚ) = 1 := by
    have : ((86400 : ℚ) / 86400) = 1 := by norm_num
    simp [dayIndex, qfloor, this]
  have hm : monthIndex (86400 : ℚ) = 23641 := by
    have : ((86400 : ℚ) / 86400) = 1 := by norm_num
    simp [monthIndex, qfloor, this]
    decide
  refine ⟨?_, ?_, ?_, ?_, upc_reqMinute s now, upc_reqHour s now,
      upc_tokMinute s now, upc_tokHour s now, ?_⟩
  · intro h
    unfold update_periodic_counters; dsimp only; split_ifs <;> simp_all
  · intro h
    unfold update_periodic_counters; dsimp only; split_ifs <;> simp_all
  · intro h
    unfold update_periodic_counters; dsimp only; split_ifs <;> simp_all
  · intro h
    unfold update_periodic_counters; dsimp only; split_ifs <;> simp_all
  · constructor <;>
      (unfold update_periodic_counters; dsimp only; split_ifs <;> simp_all)

/-- Witness for C8: crossing midnight into 1970-01-02 (day index 0 → 1,
month index unchanged) zeroes the daily request counter and keeps the
monthly one. -/
theorem C8_rollover_witness :
    ((0 : ℤ) ≠ dayIndex 86400
      ∧ (update_periodic_counters
          { dailyRequests := 7, monthlyRequests := 7, lastResetMonthly := 23641 }
          86400).dailyRequests = 0)
    ∧ ((23641 : ℤ) = monthIndex 86400
      ∧ (update_periodic_counters
          { dailyRequests := 7, monthlyRequests := 7, lastResetMonthly := 23641 }
          86400).monthlyRequests = 7) := by
  have hq : ((86400 : ℚ) / 86400) = 1 := by norm_num
  have hd : dayIndex (86400 : ℚ) = 1 := by simp [dayIndex, qfloor, hq]
  have hm : monthIndex (86400 : ℚ) = 23641 := by
    simp [monthIndex, qfloor, hq]; decide
  have h1 : ((0 : ℤ) ≠ dayIndex 86400) := by rw [hd]; decide
  have h2 : ((23641 : ℤ) = monthIndex 86400) := by rw [hm]
  exact ⟨⟨h1, ((C8_rollover_resets_exactly_crossed_dimension
      { dailyRequests := 7, monthlyRequests := 7, lastResetMonthly := 23641 }
      86400).1 h1).1⟩,
    ⟨h2, ((C8_rollover_resets_exactly_crossed_dimension
      { dailyRequests := 7, monthlyRequests := 7, lastResetMonthly := 23641 }
      86400).2.2.2.1 h2).1⟩⟩

/-- C3: with `requests_per_minute = 2` and no other dimension, from the
empty state, two admits at `t1 ≤ t2` succeed and a third at `t3` in the
same 60-second window (`t3 - t1 ≤ 60`) is denied reporting the
`requests_per_minute` dimension with current count 2, limit 2, reset
time `(t3 - 60) + 60` and `retry_after` the truncation of
`oldest surviving timestamp + 60 - now`, i.e. `int(t1 + 60 - t3)`. -/
theorem C3_third_admit_denied (t1 t2 t3 : ℚ)
    (h12 : t1 ≤ t2) (h23 : t2 ≤ t3) (h31 : t3 - t1 ≤ 60) :
    (is_allowed {} { requests_per_minute := 2 } t1).1.ok = true
    ∧ (is_allowed (is_allowed {} { requests_per_minute := 2 } t1).2
        { requests_per_minute := 2 } t2).1.ok = true
    ∧ (is_allowed (is_allowed (is_allowed {} { requests_per_minute := 2 } t1).2
          { requests_per_minute := 2 } t2).2
        { requests_per_minute := 2 } t3).1
      = AllowResult.denied ["requests_per_minute"]
          (CheckInfo.fail 2 2 ((t3 - 60) + 60) (pyInt (t1 + 60 - t3))) := by
  have hw1 : pruneWindow (t1 - 60) (update_periodic_counters {} t1).reqMinute = [] := by
    rw [upc_reqMinute]; rfl
  have hc1 : ¬ (pruneWindow (t1 - 60)
      (update_periodic_counters {} t1).reqMinute).length ≥ 2 := by
    rw [hw1]; simp
  have r1 := is_allowed_rpm_only_pass {} t1 2 hc1
  have s1m : (is_allowed {} { requests_per_minute := 2 } t1).2.reqMinute
      = [⟨t1, 0⟩] := by
    rw [r1]; simp [hw1]
  have hw2 : pruneWindow (t2 - 60)
      (update_periodic_counters
        (is_allowed {} { requests_per_minute := 2 } t1).2 t2).reqMinute
      = [⟨t1, 0⟩] := by
    rw [upc_reqMinute, s1m]
    exact pruneWindow_keep _ _ _ (by show ¬ t1 < t2 - 60; linarith)
  have hc2 : ¬ (pruneWindow (t2 - 60)
      (update_periodic_counters
        (is_allowed {} { requests_per_minute := 2 } t1).2 t2).reqMinute).length ≥ 2 := by
    rw [hw2]; simp
  have r2 := is_allowed_rpm_only_pass
    (is_allowed {} { requests_per_minute := 2 } t1).2 t2 2 hc2
  have s2m : (is_allowed (is_allowed {} { requests_per_minute := 2 } t1).2
      { requests_per_minute := 2 } t2).2.reqMinute = [⟨t1, 0⟩, ⟨t2, 0⟩] := by
    rw [r2]; simp [hw2]
  have hw3 : pruneWindow (t3 - 60)
      (update_periodic_counters
        (is_allowed (is_allowed {} { requests_per_minute := 2 } t1).2
          { requests_per_minute := 2 } t2).2 t3).reqMinute
      = [⟨t1, 0⟩, ⟨t2, 0⟩] := by
    rw [upc_reqMinute, s2m]
    exact pruneWindow_keep _ _ _ (by show ¬ t1 < t3 - 60; linarith)
  have hc3 : (pruneWindow (t3 - 60)
      (update_periodic_counters
        (is_allowed (is_allowed {} { requests_per_minute := 2 } t1).2
          { requests_per_minute := 2 } t2).2 t3).reqMinute).length ≥ 2 := by
    rw [hw3]; simp
  have r3 := is_allowed_rpm_only_deny
    (is_allowed (is_allowed {} { requests_per_minute := 2 } t1).2
      { requests_per_minute := 2 } t2).2 t3 2 hc3
  refine ⟨by rw [r1]; rfl, by rw [r2]; rfl, ?_⟩
  rw [r3, hw3]
  simp

/-- Witness for C3 at `t1 = 0`, `t2 = 1`, `t3 = 2`. -/
theorem C3_third_admit_denied_witness :
    (is_allowed {} { requests_per_minute := 2 } 0).1.ok = true
    ∧ (is_allowed (is_allowed {} { requests_per_minute := 2 } 0).2
        { requests_per_minute := 2 } 1).1.ok = true
    ∧ (is_allowed (is_allowed (is_allowed {} { requests_per_minute := 2 } 0).2
          { requests_per_minute := 2 } 1).2
        { requests_per_minute := 2 } 2).1
      = AllowResult.denied ["requests_per_minute"]
          (CheckInfo.fail 2 2 ((2 - 60) + 60) (pyInt (0 + 60 - 2))) :=
  C3_third_admit_denied 0 1 2 (by norm_num) (by norm_num) (by norm_num)

/-- Counterexample for C4: `is_allowed` takes no token-hint parameter —
it always records with `_record_usage`'s default `tokens_used = 0`.  A
passing admit from the empty state therefore leaves the token queues
empty and the day/month token accumulators at 0, so no admit call can
append a nonzero hint to the token queues as the claim describes. -/
theorem C4_no_token_hint_counterexample :
    (is_allowed {} { requests_per_minute := 2 } 0).1.ok = true
    ∧ (is_allowed {} { requests_per_minute := 2 } 0).2.tokMinute = []
    ∧ (is_allowed {} { requests_per_minute := 2 } 0).2.tokHour = []
    ∧ (is_allowed {} { requests_per_minute := 2 } 0).2.dailyTokens = 0
    ∧ (is_allowed {} { requests_per_minute := 2 } 0).2.monthlyTokens = 0 := by
  have hd : dayIndex 0 = 0 := by simp [dayIndex, qfloor]
  have hm : monthIndex 0 = 23641 := by simp [monthIndex, qfloor]; decide
  refine ⟨?_, ?_, ?_, ?_, ?_⟩ <;>
    simp [is_allowed, run_checks, check_requests_per_minute, truthy,
      update_periodic_counters, hd, hm, pruneWindow, record_usage]

/-- C4 (amended): the admit entry point `is_allowed` accepts no token
hint; when all dimensions pass it records with `tokens_used = 0`, so
the token queues gain no entry (they are at most pruned) and the token
accumulators are unchanged.  Token usage is instead recorded after
completion by `record_token_usage`, which appends `(now, tokens)` to
both token queues and increments the day/month token accumulators while
leaving the request side untouched. -/
theorem C4_token_recording (s : KeyState) (limit : RateLimit) (now : ℚ) (tok : ℕ) :
    (((is_allowed s limit now).1.ok = true →
      ((is_allowed s limit now).2.tokMinute
          = (if truthy limit.tokens_per_minute then pruneWindow (now - 60) s.tokMinute
             else s.tokMinute)
        ∧ (is_allowed s limit now).2.tokHour
          = (if truthy limit.tokens_per_hour then pruneWindow (now - 3600) s.tokHour
             else s.tokHour)
        ∧ (is_allowed s limit now).2.dailyTokens
          = (update_periodic_counters s now).dailyTokens
        ∧ (is_allowed s limit now).2.monthlyTokens
          = (update_periodic_counters s now).monthlyTokens))
    ∧ (record_token_usage s now tok).tokMinute = s.tokMinute ++ [⟨now, tok⟩]
    ∧ (record_token_usage s now tok).tokHour = s.tokHour ++ [⟨now, tok⟩]
    ∧ (record_token_usage s now tok).dailyTokens = s.dailyTokens + tok
    ∧ (record_token_usage s now tok).monthlyTokens = s.monthlyTokens + tok
    ∧ (record_token_usage s now tok).reqMinute = s.reqMinute
    ∧ (record_token_usage s now tok).reqHour = s.reqHour
    ∧ (record_token_usage s now tok).dailyRequests = s.dailyRequests
    ∧ (record_token_usage s now tok).monthlyRequests = s.monthlyRequests) := by
  refine ⟨fun h => ?_, rfl, rfl, rfl, rfl, rfl, rfl, rfl, rfl⟩
  have he := is_allowed_pass_effects s limit now h
  exact ⟨he.2.2.2.2.1, he.2.2.2.2.2.1, he.2.2.2.2.2.2.1, he.2.2.2.2.2.2.2⟩

/-- Witness for C4 (amended) at the empty state, `rpm = 2`, `now = 0`,
`tokens = 5`: the passing admit leaves the token side untouched and a
subsequent `record_token_usage` appends the 5 tokens. -/
theorem C4_token_recording_witness :
    ((is_allowed {} { requests_per_minute := 2 } 0).2.tokMinute = []
      ∧ (is_allowed {} { requests_per_minute := 2 } 0).2.tokHour = []
      ∧ (is_allowed {} { requests_per_minute := 2 } 0).2.dailyTokens
        = (update_periodic_counters {} 0).dailyTokens
      ∧ (is_allowed {} { requests_per_minute := 2 } 0).2.monthlyTokens
        = (update_periodic_counters {} 0).monthlyTokens)
    ∧ (record_token_usage {} 0 5).tokMinute = [{ timestamp := 0, tokens := 5 }]
    ∧ (record_token_usage {} 0 5).dailyTokens = 5 :=
  ⟨(C4_token_recording {} { requests_per_minute := 2 } 0 5).1 (by
      have hd : dayIndex 0 = 0 := by simp [dayIndex, qfloor]
      have hm : monthIndex 0 = 23641 := by simp [monthIndex, qfloor]; decide
      simp [is_allowed, run_checks, check_requests_per_minute, truthy,
        update_periodic_counters, hd, hm, pruneWindow]),
    (C4_token_recording {} { requests_per_minute := 2 } 0 5).2.1,
    (C4_token_recording {} { requests_per_minute := 2 } 0 5).2.2.2.1⟩

/-- Counterexample for C2: `check_availability` is not a dry run.  With
an API key configured and `requests_per_minute = 1`, a successful
availability check from the empty state appends the current timestamp
to the request queue (consuming the quota), and an immediately repeated
availability check is denied. -/
theorem C2_check_availability_consumes :
    (check_availability "k" [("default", { requests_per_minute := 1 })] "m" {} 0).1.1 = true
    ∧ (check_availability "k" [("default", { requests_per_minute := 1 })] "m" {} 0).2.reqMinute
      = [{ timestamp := 0, tokens := 0 }]
    ∧ (check_availability "k" [("default", { requests_per_minute := 1 })] "m"
        (check_availability "k" [("default", { requests_per_minute := 1 })] "m" {} 0).2
        0).1.1 = false := by
  have hd : dayIndex 0 = 0 := by simp [dayIndex, qfloor]
  have hm : monthIndex 0 = 23641 := by simp [monthIndex, qfloor]; decide
  refine ⟨?_, ?_, ?_⟩ <;>
    simp [check_availability, get_rate_limit_for_model, is_allowed, run_checks,
      check_requests_per_minute, truthy, update_periodic_counters, hd, hm,
      pruneWindow, record_usage, List.dropWhile]

/-- C2 (amended): with no API key configured `check_availability` fails
closed without consulting the rate limiter; otherwise it delegates to
the consuming `is_allowed` on the resolved model's limit — it returns
`is_allowed`'s verdict and its (mutated) state, so a successful
availability check records usage: the request queue gains the current
timestamp and the day/month request accumulators increment. -/
theorem C2_check_availability_delegates (apiKey model : String)
    (rl : List (String × RateLimit)) (s : KeyState) (now : ℚ) :
    ((apiKey = "" →
        check_availability apiKey rl model s now = ((false, AvailInfo.apiKeyMissing), s))
    ∧ (apiKey ≠ "" →
        ((check_availability apiKey rl model s now).1.1
            = (is_allowed s (get_rate_limit_for_model rl model) now).1.ok
          ∧ (check_availability apiKey rl model s now).2
            = (is_allowed s (get_rate_limit_for_model rl model) now).2
          ∧ ((is_allowed s (get_rate_limit_for_model rl model) now).1.ok = true →
              (check_availability apiKey rl model s now).2.reqMinute
                = pruneWindow (now - 60) s.reqMinute ++ [⟨now, 0⟩]
              ∧ (check_availability apiKey rl model s now).2.dailyRequests
                = (update_periodic_counters s now).dailyRequests + 1
              ∧ (check_availability apiKey rl model s now).2.monthlyRequests
                = (update_periodic_counters s now).monthlyRequests + 1)))) := by
  constructor
  · intro h
    simp [check_availability, h]
  · intro h
    have hne : ¬ apiKey = "" := h
    refine ⟨?_, ?_, ?_⟩
    · simp only [check_availability, if_neg hne]
      cases hok : (is_allowed s (get_rate_limit_for_model rl model) now).1.ok <;>
        simp [hok]
    · simp only [check_availability, if_neg hne]
      cases hok : (is_allowed s (get_rate_limit_for_model rl model) now).1.ok <;>
        simp [hok]
    · intro hok
      have hst : (check_availability apiKey rl model s now).2
          = (is_allowed s (get_rate_limit_for_model rl model) now).2 := by
        simp only [check_availability, if_neg hne]
        simp [hok]
      rw [hst]
      have he := is_allowed_pass_effects s (get_rate_limit_for_model rl model) now hok
      exact ⟨he.1, he.2.2.1, he.2.2.2.1⟩

/-- Witness for C2 (amended): the no-key branch at one input, and the
consuming delegation at another. -/
theorem C2_check_availability_delegates_witness :
    (check_availability "" [("default", { requests_per_minute := 1 })] "m" {} 0
        = ((false, AvailInfo.apiKeyMissing), {})
    ∧ ((check_availability "k" [("default", { requests_per_minute := 1 })] "m" {} 0).1.1
        = (is_allowed {} (get_rate_limit_for_model
            [("default", { requests_per_minute := 1 })] "m") 0).1.ok)) :=
  ⟨(C2_check_availability_delegates "" "m"
      [("default", { requests_per_minute := 1 })] {} 0).1 rfl,
   ((C2_check_availability_delegates "k" "m"
      [("default", { requests_per_minute := 1 })] {} 0).2 (by decide)).1⟩

/-- Counterexample for C9: with `requests_per_minute = 1`, an admit at
time 0 fills the bucket to level 1; a second admit at time 30 drains it
to 1/2 < 1 and is granted, leaving the post-admission level 3/2, which
exceeds the capacity 1 — so the limiter does not admit "exactly when
the level after adding 1 stays ≤ capacity", and a granted admit can
leave the level above capacity. -/
theorem C9_leaky_bucket_counterexample :
    (leaky_is_allowed none 1 0).1.1 = true
    ∧ (leaky_is_allowed none 1 0).2 = { level := 1, lastLeak := 0 }
    ∧ (leaky_is_allowed (some { level := 1, lastLeak := 0 }) 1 30).1.1 = true
    ∧ (leaky_is_allowed (some { level := 1, lastLeak := 0 }) 1 30).2.level = 3/2
    ∧ ¬ ((3 : ℚ)/2 ≤ 1) := by
  refine ⟨?_, ?_, ?_, ?_, by norm_num⟩ <;> norm_num [leaky_is_allowed]

/-- C9 (amended): the leaky bucket admits exactly when the drained
level (before adding the request) is strictly below the capacity
`requests_per_minute`; a granted admit sets the level to drained + 1,
which is therefore strictly below capacity + 1 but may exceed the
capacity itself. -/
theorem C9_leaky_bucket_admission (b : Option LeakyBucket) (rpm : ℕ) (now : ℚ) :
    ((leaky_is_allowed b rpm now).1.1 = true ↔
      max 0 ((b.getD { level := 0, lastLeak := now }).level
          - (now - (b.getD { level := 0, lastLeak := now }).lastLeak) * ((rpm : ℚ) / 60))
        < (rpm : ℚ))
    ∧ ((leaky_is_allowed b rpm now).1.1 = true →
        (leaky_is_allowed b rpm now).2.level
          = max 0 ((b.getD { level := 0, lastLeak := now }).level
              - (now - (b.getD { level := 0, lastLeak := now }).lastLeak) * ((rpm : ℚ) / 60)) + 1
        ∧ (leaky_is_allowed b rpm now).2.level < (rpm : ℚ) + 1) := by
  cases b with
  | none =>
    by_cases h : max 0 ((0 : ℚ) - (now - now) * ((rpm : ℚ) / 60)) ≥ (rpm : ℚ)
    · constructor
      · simp only [leaky_is_allowed, Option.getD]
        rw [if_pos h]
        simpa using not_lt_of_ge h
      · intro ht
        simp only [leaky_is_allowed, Option.getD] at ht
        rw [if_pos h] at ht
        simp at ht
    · constructor
      · simp only [leaky_is_allowed, Option.getD]
        rw [if_neg h]
        simpa using lt_of_not_ge h
      · intro _
        simp only [leaky_is_allowed, Option.getD]
        rw [if_neg h]
        refine ⟨rfl, ?_⟩
        have hlt := lt_of_not_ge h
        show (0 : ℚ) ⊔ ((0 : ℚ) - (now - now) * ((rpm : ℚ) / 60)) + 1 < (rpm : ℚ) + 1
        linarith
  | some bk =>
    by_cases h : max 0 (bk.level - (now - bk.lastLeak) * ((rpm : ℚ) / 60)) ≥ (rpm : ℚ)
    · constructor
      · simp only [leaky_is_allowed, Option.getD]
        rw [if_pos h]
        simpa using not_lt_of_ge h
      · intro ht
        simp only [leaky_is_allowed, Option.getD] at ht
        rw [if_pos h] at ht
        simp at ht
    · constructor
      · simp only [leaky_is_allowed, Option.getD]
        rw [if_neg h]
        simpa using lt_of_not_ge h
      · intro _
        simp only [leaky_is_allowed, Option.getD]
        rw [if_neg h]
        refine ⟨rfl, ?_⟩
        have hlt := lt_of_not_ge h
        show (0 : ℚ) ⊔ (bk.level - (now - bk.lastLeak) * ((rpm : ℚ) / 60)) + 1 < (rpm : ℚ) + 1
        linarith

/-- Witness for C9 (amended): fresh bucket, capacity 1, time 0 — the
admit is granted with post-admission level `max 0 (0 - 0·(1/60)) + 1`,
strictly below capacity + 1. -/
theorem C9_leaky_bucket_admission_witness :
    (leaky_is_allowed none 1 0).2.level
      = max 0 (((none : Option LeakyBucket).getD { level := 0, lastLeak := 0 }).level
          - ((0 : ℚ) - ((none : Option LeakyBucket).getD { level := 0, lastLeak := 0 }).lastLeak)
            * ((1 : ℚ) / 60)) + 1
    ∧ (leaky_is_allowed none 1 0).2.level < (1 : ℚ) + 1 :=
  (C9_leaky_bucket_admission none 1 0).2 (by norm_num [leaky_is_allowed])

/-- C10: `get_stats` reports `available = True` when the adapter has
handled zero requests, and otherwise exactly when
`successful_requests / total_requests > 0.5`.  The smart scorer reads
only `success_rate`, `average_latency` and `total_requests` from the
snapshot — flipping the `available` flag never changes a provider's
selection score. -/
theorem C10_get_stats_available (c : ClientStats) (snap : StatsSnapshot) (b : Bool)
    (models : List String) (st : SmartState) (p : String) (ct : ℚ) (rm : Option String) :
    ((c.total_requests = 0 → (get_stats c).available = true)
    ∧ (0 < c.total_requests →
        ((get_stats c).available = true
          ↔ (c.successful_requests : ℚ) / c.total_requests > 1/2))
    ∧ score_from_stats { snap with available := b } models st p ct rm
        = score_from_stats snap models st p ct rm) := by
  refine ⟨?_, ?_, rfl⟩
  · intro h
    simp [get_stats, h]
  · intro h
    simp [get_stats, h, Nat.pos_iff_ne_zero.mp h]

/-- Witness for C10: an adapter with no traffic is reported available;
one with 1 success out of 2 requests is reported available iff
`1/2 > 1/2`, i.e. it is not. -/
theorem C10_get_stats_available_witness :
    (get_stats {}).available = true
    ∧ ((get_stats { total_requests := 2, successful_requests := 1 }).available = true
        ↔ ((({ total_requests := 2, successful_requests := 1 } : ClientStats).successful_requests : ℚ)
            / ({ total_requests := 2, successful_requests := 1 } : ClientStats).total_requests
          > 1/2)) :=
  ⟨(C10_get_stats_available {} (get_stats {}) false [] {} "" 0 none).1 rfl,
   (C10_get_stats_available { total_requests := 2, successful_requests := 1 }
      (get_stats {}) false [] {} "" 0 none).2.1 (by norm_num)⟩

/-! ### Association-list lemmas -/

theorem alistLookup_set {α : Type} (l : List (String × α)) (k : String) (v : α) :
    alistLookup (alistSet l k v) k = some v := by
  induction l with
  | nil => simp [alistSet, alistLookup]
  | cons e t ih =>
    by_cases h : e.1 == k
    · simp [alistSet, alistLookup, h]
    · simp only [alistSet, h, if_false, Bool.false_eq_true]
      simpa [alistLookup, List.find?_cons, h] using ih

theorem alistLookup_erase {α : Type} (l : List (String × α)) (k : String) :
    alistLookup (alistErase l k) k = none := by
  induction l with
  | nil => simp [alistErase, alistLookup]
  | cons e t ih =>
    by_cases h : e.1 == k
    · have hb : (e.1 != k) = false := by simp [bne, h]
      simpa [alistErase, List.filter_cons, hb] using ih
    · have hb : (e.1 != k) = true := by simp [bne]; simpa using h
      simp only [alistErase] at ih
      simp only [alistErase, List.filter_cons, hb, if_true]
      simpa [alistLookup, List.find?_cons, h] using ih

/-! ### Router helper lemmas -/

theorem route_loop_success_clears (env : RouterEnv) :
    ∀ (fuel attempts : ℕ) (le : Option String) (fp : List (String × ℚ))
      (r : DispatchOutcome),
      (route_loop env fuel attempts le fp).result = Except.ok r →
      ∃ q, (route_loop env fuel attempts le fp).cleared = some q
        ∧ alistLookup (route_loop env fuel attempts le fp).finalFailed q = none := by
  intro fuel
  induction fuel with
  | zero =>
    intro attempts le fp r h
    simp [route_loop] at h
  | succ n ih =>
    intro attempts le fp r h
    by_cases hg : attempts < retry_attempts
    · cases hsel : env.select (attempts + 1) with
      | none =>
        by_cases ha : attempts + 1 < retry_attempts
        · simp only [route_loop, if_pos hg, hsel, if_pos ha] at h ⊢
          exact ih _ _ _ _ h
        · simp only [route_loop, if_pos hg, hsel, if_neg ha] at h
          exact absurd h (by simp)
      | some p =>
        cases hcb : is_circuit_broken fp circuit_breaker_timeout p
            (env.timeAt (attempts + 1)) with
        | true =>
          simp only [route_loop, if_pos hg, hsel, hcb, if_true] at h ⊢
          exact ih _ _ _ _ h
        | false =>
          cases hce : env.clientExists p with
          | false =>
            simp only [route_loop, if_pos hg, hsel, hcb, hce, Bool.false_eq_true,
              if_false, Bool.not_false, if_true] at h ⊢
            exact ih _ _ _ _ h
          | true =>
            cases hdo : env.dispatch (attempts + 1) with
            | ok prov content =>
              simp only [route_loop, if_pos hg, hsel, hcb, hce, Bool.false_eq_true,
                if_false, Bool.not_true, hdo] at h ⊢
              exact ⟨p, rfl, alistLookup_erase fp p⟩
            | error msg =>
              by_cases ha : attempts + 1 < retry_attempts
              · simp only [route_loop, if_pos hg, hsel, hcb, hce, Bool.false_eq_true,
                  if_false, Bool.not_true, hdo, if_pos ha] at h ⊢
                exact ih _ _ _ _ h
              · simp only [route_loop, if_pos hg, hsel, hcb, hce, Bool.false_eq_true,
                  if_false, Bool.not_true, hdo, if_neg ha] at h ⊢
                exact ih _ _ _ _ h
    · simp only [route_loop, if_neg hg] at h
      exact absurd h (by simp)

/-- C6: the circuit breaker.  After recording a failure for a provider
at time `T`, `_is_circuit_broken` reports the provider open at time `t`
exactly while `t - T < 300` (the default `circuit_breaker_timeout`),
and closed as soon as `t - T ≥ 300`; deleting the failure record (as
the success path of `route_request` does) closes the circuit
immediately at every time; and whenever `route_request` returns
successfully, the dispatched provider's failure record has been removed
from the final circuit-breaker map. -/
theorem C6_circuit_breaker (fp : List (String × ℚ)) (p : String) (T t : ℚ)
    (env : RouterEnv) (fp2 : List (String × ℚ)) :
    (circuit_breaker_timeout = 300
    ∧ is_circuit_broken (update_circuit_breaker fp p T) circuit_breaker_timeout p t
        = decide (t - T < 300)
    ∧ is_circuit_broken (alistErase fp p) circuit_breaker_timeout p t = false
    ∧ (∀ r, (route_request env fp2).result = Except.ok r →
        ∃ q, (route_request env fp2).cleared = some q
          ∧ alistLookup (route_request env fp2).finalFailed q = none)) := by
  refine ⟨rfl, ?_, ?_, ?_⟩
  · simp [is_circuit_broken, update_circuit_breaker, alistLookup_set,
      circuit_breaker_timeout]
  · simp [is_circuit_broken, alistLookup_erase]
  · intro r h
    exact route_loop_success_clears env retry_attempts 0 none fp2 r h

/-- Witness for C6: a router environment whose first dispatch succeeds
leaves no failure record for the cleared provider. -/
theorem C6_circuit_breaker_witness :
    ∃ q, (route_request
        { select := fun _ => some "a", clientExists := fun _ => true,
          dispatch := fun _ => DispatchOutcome.ok "a" "hi", timeAt := fun _ => 0 }
        []).cleared = some q
      ∧ alistLookup (route_request
        { select := fun _ => some "a", clientExists := fun _ => true,
          dispatch := fun _ => DispatchOutcome.ok "a" "hi", timeAt := fun _ => 0 }
        []).finalFailed q = none :=
  (C6_circuit_breaker [] "a" 0 0
      { select := fun _ => some "a", clientExists := fun _ => true,
        dispatch := fun _ => DispatchOutcome.ok "a" "hi", timeAt := fun _ => 0 }
      []).2.2.2 (DispatchOutcome.ok "a" "hi") rfl

/-- The last underlying failure bundled by the exhausted route loop:
the error of the last dispatch attempt, or the incoming `last_error`
when the remaining loop made no dispatch. -/
theorem route_loop_spec (env : RouterEnv) :
    ∀ (fuel attempts : ℕ) (le : Option String) (fp : List (String × ℚ)),
      attempts + fuel = retry_attempts →
      ((route_loop env fuel attempts le fp).attemptsMade ≤ fuel
      ∧ (∀ a ∈ (route_loop env fuel attempts le fp).dispatchAttempts,
          attempts < a ∧ a ≤ retry_attempts)
      ∧ (∀ a ∈ (route_loop env fuel attempts le fp).circuitSkips,
          attempts < a ∧ a ≤ retry_attempts
          ∧ a ∉ (route_loop env fuel attempts le fp).dispatchAttempts)
      ∧ (∀ a ∈ (route_loop env fuel attempts le fp).dispatchAttempts,
          ∀ m, a < retry_attempts → env.dispatch a = DispatchOutcome.error m →
            min ((a : ℚ) * (1/2)) 2 ∈ (route_loop env fuel attempts le fp).sleeps)
      ∧ (∀ e, (route_loop env fuel attempts le fp).result = Except.error e →
          (route_loop env fuel attempts le fp).attemptsMade = fuel)
      ∧ (0 < fuel → (∀ a, attempts < a → a ≤ retry_attempts → env.select a = none) →
          (route_loop env fuel attempts le fp).result
            = Except.error RouteError.noProvidersAvailable)
      ∧ (∀ le', (route_loop env fuel attempts le fp).result
            = Except.error (RouteError.allProvidersFailed le') →
          le' = (match (route_loop env fuel attempts le fp).dispatchAttempts.getLast? with
                 | none => le
                 | some a => match env.dispatch a with
                             | DispatchOutcome.ok _ _ => none
                             | DispatchOutcome.error m => some m))) := by
  intro fuel
  induction fuel with
  | zero =>
    intro attempts le fp hrel
    refine ⟨Nat.le_refl 0, ?_, ?_, ?_, ?_, ?_, ?_⟩ <;>
      simp [route_loop]
  | succ n ih =>
    intro attempts le fp hrel
    have hg : attempts < retry_attempts := by omega
    cases hsel : env.select (attempts + 1) with
    | none =>
      by_cases ha : attempts + 1 < retry_attempts
      · obtain ⟨ih1, ih2, ih3, ih4, ih5, ih6, ih7⟩ :=
          ih (attempts + 1) le fp (by omega)
        simp only [route_loop, if_pos hg, hsel, if_pos ha]
        refine ⟨by omega, ?_, ?_, ?_, ?_, ?_, ?_⟩
        · intro a haa; have := ih2 a haa; omega
        · intro a haa
          obtain ⟨h1, h2, h3⟩ := ih3 a haa
          exact ⟨by omega, h2, h3⟩
        · intro a haa m halt hdm
          exact List.mem_cons_of_mem _ (ih4 a haa m halt hdm)
        · intro e he; rw [ih5 e he]
        · intro _ hall
          exact ih6 (by omega) (fun a h1 h2 => hall a (by omega) h2)
        · intro le' hle'; exact ih7 le' hle'
      · simp only [route_loop, if_pos hg, hsel, if_neg ha]
        refine ⟨by omega, by simp, by simp, by simp, fun e _ => by omega,
          by simp, ?_⟩
        intro le' hle'
        simp at hle'
    | some p =>
      cases hcb : is_circuit_broken fp circuit_breaker_timeout p
          (env.timeAt (attempts + 1)) with
      | true =>
        obtain ⟨ih1, ih2, ih3, ih4, ih5, ih6, ih7⟩ :=
          ih (attempts + 1) le fp (by omega)
        simp only [route_loop, if_pos hg, hsel, hcb, if_true]
        refine ⟨by omega, ?_, ?_, ?_, ?_, ?_, ?_⟩
        · intro a haa; have := ih2 a haa; omega
        · intro a haa
          rcases List.mem_cons.mp haa with rfl | hmem
          · refine ⟨by omega, by omega, fun hc => ?_⟩
            have := ih2 _ hc; omega
          · obtain ⟨h1, h2, h3⟩ := ih3 a hmem
            exact ⟨by omega, h2, h3⟩
        · intro a haa m halt hdm
          exact ih4 a haa m halt hdm
        · intro e he; rw [ih5 e he]
        · intro _ hall
          exact absurd (hall (attempts + 1) (by omega) (by omega))
            (by rw [hsel]; simp)
        · intro le' hle'; exact ih7 le' hle'
      | false =>
        cases hce : env.clientExists p with
        | false =>
          obtain ⟨ih1, ih2, ih3, ih4, ih5, ih6, ih7⟩ :=
            ih (attempts + 1) le fp (by omega)
          simp only [route_loop, if_pos hg, hsel, hcb, hce, Bool.false_eq_true,
            if_false, Bool.not_false, if_true]
          refine ⟨by omega, ?_, ?_, ?_, ?_, ?_, ?_⟩
          · intro a haa; have := ih2 a haa; omega
          · intro a haa
            obtain ⟨h1, h2, h3⟩ := ih3 a haa
            exact ⟨by omega, h2, h3⟩
          · intro a haa m halt hdm
            exact ih4 a haa m halt hdm
          · intro e he; rw [ih5 e he]
          · intro _ hall
            exact absurd (hall (attempts + 1) (by omega) (by omega))
              (by rw [hsel]; simp)
          · intro le' hle'; exact ih7 le' hle'
        | true =>
          cases hdo : env.dispatch (attempts + 1) with
          | ok prov content =>
            simp only [route_loop, if_pos hg, hsel, hcb, hce, Bool.false_eq_true,
              if_false, Bool.not_true, hdo]
            refine ⟨by omega, ?_, by simp, ?_, ?_, ?_, ?_⟩
            · intro a haa
              simp only [List.mem_singleton] at haa
              omega
            · intro a haa m _ hdm
              simp only [List.mem_singleton] at haa
              subst haa
              rw [hdo] at hdm
              exact absurd hdm (by simp)
            · intro e he; simp at he
            · intro _ hall
              exact absurd (hall (attempts + 1) (by omega) (by omega))
                (by rw [hsel]; simp)
            · intro le' hle'; simp at hle'
          | error msg =>
            by_cases ha : attempts + 1 < retry_attempts
            · obtain ⟨ih1, ih2, ih3, ih4, ih5, ih6, ih7⟩ :=
                ih (attempts + 1) (some msg)
                  (update_circuit_breaker fp p (env.timeAt (attempts + 1))) (by omega)
              simp only [route_loop, if_pos hg, hsel, hcb, hce, Bool.false_eq_true,
                if_false, Bool.not_true, hdo, if_pos ha]
              refine ⟨by omega, ?_, ?_, ?_, ?_, ?_, ?_⟩
              · intro a haa
                rcases List.mem_cons.mp haa with rfl | hmem
                · omega
                · have := ih2 a hmem; omega
              · intro a haa
                obtain ⟨h1, h2, h3⟩ := ih3 a haa
                refine ⟨by omega, h2, ?_⟩
                simp only [List.mem_cons, not_or]
                exact ⟨by omega, h3⟩
              · intro a haa m halt hdm
                rcases List.mem_cons.mp haa with rfl | hmem
                · exact List.mem_cons_self _ _
                · exact List.mem_cons_of_mem _ (ih4 a hmem m halt hdm)
              · intro e he; rw [ih5 e he]
              · intro _ hall
                exact absurd (hall (attempts + 1) (by omega) (by omega))
                  (by rw [hsel]; simp)
              · intro le' hle'
                have := ih7 le' hle'
                cases hdis : (route_loop env n (attempts + 1) (some msg)
                    (update_circuit_breaker fp p (env.timeAt (attempts + 1)))).dispatchAttempts with
                | nil =>
                  rw [hdis] at this
                  simp only [hdis, List.getLast?_singleton]
                  rw [hdo]
                  simpa using this
                | cons c t =>
                  rw [hdis] at this
                  simp only [hdis, List.getLast?_cons_cons]
                  exact this
            · obtain ⟨ih1, ih2, ih3, ih4, ih5, ih6, ih7⟩ :=
                ih (attempts + 1) (some msg)
                  (update_circuit_breaker fp p (env.timeAt (attempts + 1))) (by omega)
              simp only [route_loop, if_pos hg, hsel, hcb, hce, Bool.false_eq_true,
                if_false, Bool.not_true, hdo, if_neg ha]
              refine ⟨by omega, ?_, ?_, ?_, ?_, ?_, ?_⟩
              · intro a haa
                rcases List.mem_cons.mp haa with rfl | hmem
                · omega
                · have := ih2 a hmem; omega
              · intro a haa
                obtain ⟨h1, h2, h3⟩ := ih3 a haa
                refine ⟨by omega, h2, ?_⟩
                simp only [List.mem_cons, not_or]
                exact ⟨by omega, h3⟩
              · intro a haa m halt hdm
                rcases List.mem_cons.mp haa with rfl | hmem
                · omega
                · have := ih2 a hmem; omega
              · intro e he; rw [ih5 e he]
              · intro _ hall
                exact absurd (hall (attempts + 1) (by omega) (by omega))
                  (by rw [hsel]; simp)
              · intro le' hle'
                have := ih7 le' hle'
                cases hdis : (route_loop env n (attempts + 1) (some msg)
                    (update_circuit_breaker fp p (env.timeAt (attempts + 1)))).dispatchAttempts with
                | nil =>
                  rw [hdis] at this
                  simp only [hdis, List.getLast?_singleton]
                  rw [hdo]
                  simpa using this
                | cons c t =>
                  rw [hdis] at this
                  simp only [hdis, List.getLast?_cons_cons]
                  exact this

/-- C5: the dispatch loop of `route_request` consumes at most 3 attempt
slots in total.  Every dispatch and every circuit-open skip occupies an
attempt numbered 1..3, a circuit-open selection consumes its slot
without dispatching, a failed dispatch at attempt `a < 3` is followed
by a sleep of `min(a × 0.5, 2.0)` seconds, any raised error means the
whole budget of 3 was consumed, a run whose three selections all yield
no provider raises the no-providers-available error, and the terminal
all-providers-failed error bundles the error of the last dispatch
attempt (or `None` when nothing was dispatched). -/
theorem C5_retry_budget (env : RouterEnv) (fp : List (String × ℚ)) :
    ((route_request env fp).attemptsMade ≤ 3
    ∧ (∀ a ∈ (route_request env fp).dispatchAttempts, 1 ≤ a ∧ a ≤ 3)
    ∧ (∀ a ∈ (route_request env fp).circuitSkips,
        1 ≤ a ∧ a ≤ 3 ∧ a ∉ (route_request env fp).dispatchAttempts)
    ∧ (∀ a ∈ (route_request env fp).dispatchAttempts, ∀ m, a < 3 →
        env.dispatch a = DispatchOutcome.error m →
        min ((a : ℚ) * (1/2)) 2 ∈ (route_request env fp).sleeps)
    ∧ (∀ e, (route_request env fp).result = Except.error e →
        (route_request env fp).attemptsMade = 3)
    ∧ ((∀ a, 1 ≤ a → a ≤ 3 → env.select a = none) →
        (route_request env fp).result = Except.error RouteError.noProvidersAvailable)
    ∧ (∀ le', (route_request env fp).result
          = Except.error (RouteError.allProvidersFailed le') →
        le' = (match (route_request env fp).dispatchAttempts.getLast? with
               | none => none
               | some a => match env.dispatch a with
                           | DispatchOutcome.ok _ _ => none
                           | DispatchOutcome.error m => some m))) := by
  obtain ⟨h1, h2, h3, h4, h5, h6, h7⟩ := route_loop_spec env retry_attempts 0 none fp rfl
  exact ⟨h1, fun a ha => ⟨(h2 a ha).1, (h2 a ha).2⟩,
    fun a ha => ⟨(h3 a ha).1, (h3 a ha).2.1, (h3 a ha).2.2⟩,
    h4, h5, fun hall => h6 (by decide) (fun a hal har => hall a hal har), h7⟩

/-- Witness for C5: with three always-failing providers the router
makes exactly 3 attempts and bundles the last failure; with no provider
ever available it raises the no-providers error. -/
theorem C5_retry_budget_witness :
    (route_request
        { select := fun a => some (if a = 1 then "pa" else if a = 2 then "pb" else "pc"),
          clientExists := fun _ => true,
          dispatch := fun _ => DispatchOutcome.error "boom",
          timeAt := fun a => (a : ℚ) } []).attemptsMade = 3
    ∧ (route_request
        { select := fun _ => none, clientExists := fun _ => true,
          dispatch := fun _ => DispatchOutcome.error "boom",
          timeAt := fun a => (a : ℚ) } []).result
      = Except.error RouteError.noProvidersAvailable :=
  ⟨(C5_retry_budget
      { select := fun a => some (if a = 1 then "pa" else if a = 2 then "pb" else "pc"),
        clientExists := fun _ => true,
        dispatch := fun _ => DispatchOutcome.error "boom",
        timeAt := fun a => (a : ℚ) } []).2.2.2.2.1
      (RouteError.allProvidersFailed (some "boom")) rfl,
   (C5_retry_budget
      { select := fun _ => none, clientExists := fun _ => true,
        dispatch := fun _ => DispatchOutcome.error "boom",
        timeAt := fun a => (a : ℚ) } []).2.2.2.2.2.1
      (fun _ _ _ => rfl)⟩

/-! ### Smart-balancer helper lemmas -/

theorem weightedPick_mem (r : ℚ) :
    ∀ (l : List (String × ℚ)) (cum : ℚ) (p : String),
      weightedPick r cum l = some p → p ∈ l.map Prod.fst := by
  intro l
  induction l with
  | nil => intro cum p h; simp [weightedPick] at h
  | cons x t ih =>
    intro cum p h
    by_cases hx : r ≤ cum + x.2
    · simp only [weightedPick, if_pos hx, Option.some.injEq] at h
      simp [← h]
    · simp only [weightedPick, if_neg hx] at h
      simpa using Or.inr (ih (cum + x.2) p h)

theorem weightedPick_some (r : ℚ) :
    ∀ (l : List (String × ℚ)) (cum : ℚ), l ≠ [] →
      r ≤ cum + (l.map Prod.snd).sum → ∃ p, weightedPick r cum l = some p := by
  intro l
  induction l with
  | nil => intro cum h; simp at h
  | cons x t ih =>
    intro cum _ hr
    by_cases hx : r ≤ cum + x.2
    · exact ⟨x.1, by simp [weightedPick, hx]⟩
    · cases t with
      | nil =>
        exfalso
        apply hx
        simpa using hr
      | cons y u =>
        obtain ⟨p, hp⟩ := ih (cum + x.2) (by simp)
          (by simp only [List.map_cons, List.sum_cons] at hr ⊢; linarith)
        exact ⟨p, by simp only [weightedPick, if_neg hx]; exact hp⟩

theorem insertByScore_length (x : String × ℚ) :
    ∀ l : List (String × ℚ), (insertByScore x l).length = l.length + 1 := by
  intro l
  induction l with
  | nil => rfl
  | cons y t ih =>
    by_cases h : y.2 ≤ x.2
    · simp [insertByScore, h]
    · simp [insertByScore, h, ih]

theorem sortByScoreDesc_length (l : List (String × ℚ)) :
    (sortByScoreDesc l).length = l.length := by
  induction l with
  | nil => rfl
  | cons x t ih => simp [sortByScoreDesc, insertByScore_length, ih]

theorem select_provider_cons (pr : String) (prs : List String)
    (clients : String → Option ClientStats) (st : SmartState) (ct : ℚ)
    (rm : Option String) (randVal : ℚ) :
    select_provider (pr :: prs) clients st ct rm randVal
      = (let scored := (pr :: prs).map
            (fun q => (q, calculate_provider_score (clients q) st q ct rm))
         let sorted := sortByScoreDesc scored
         let top := sorted.take (min 3 sorted.length)
         let total := (top.map Prod.snd).sum
         if total = 0 then ((sorted.head?).map Prod.fst, st)
         else
           match weightedPick randVal 0 top with
           | some p =>
               (some p,
                 { st with
                   currentLoads := alistSet st.currentLoads p
                     ((alistLookup st.currentLoads p).getD 0 + 1),
                   lastSelectionTime := alistSet st.lastSelectionTime p ct })
           | none => ((top.head?).map Prod.fst, st)) := rfl

/-- C7 (amended): on a non-empty availability snapshot the smart
balancer always returns one of the top-3 scorers by the weighted
0.30/0.25/0.20/0.10/0.10/0.05 composite; whenever the summed top-3
score is nonzero and the drawn value lies within it, the selection is
the weighted-random walk's pick, whose in-flight load counter is
incremented and decremented again by `update_provider_stats`; and the
draw is a deterministic function of the score snapshot and the drawn
value.  (When the top-3 scores sum to zero the balancer returns the top
scorer without recording the selection — see the counterexample.) -/
theorem C7_smart_selection (providers : List String)
    (clients clients2 : String → Option ClientStats) (st : SmartState) (ct : ℚ)
    (rm : Option String) (randVal : ℚ)
    (scored sorted top : List (String × ℚ)) (total : ℚ)
    (hscored : scored = providers.map
      (fun q => (q, calculate_provider_score (clients q) st q ct rm)))
    (hsorted : sorted = sortByScoreDesc scored)
    (htop : top = sorted.take (min 3 sorted.length))
    (htotal : total = (top.map Prod.snd).sum) :
    ((providers ≠ [] →
      ∃ p, (select_provider providers clients st ct rm randVal).1 = some p
        ∧ p ∈ top.map Prod.fst)
    ∧ (providers ≠ [] → randVal ≤ total → total ≠ 0 →
      ∃ p, weightedPick randVal 0 top = some p
        ∧ select_provider providers clients st ct rm randVal
          = (some p,
            { st with
              currentLoads := alistSet st.currentLoads p
                ((alistLookup st.currentLoads p).getD 0 + 1),
              lastSelectionTime := alistSet st.lastSelectionTime p ct })
        ∧ alistLookup (select_provider providers clients st ct rm randVal).2.currentLoads p
          = some ((alistLookup st.currentLoads p).getD 0 + 1)
        ∧ alistLookup (update_provider_stats
            (select_provider providers clients st ct rm randVal).2 p true 1).currentLoads p
          = some ((alistLookup st.currentLoads p).getD 0))
    ∧ ((∀ q ∈ providers, calculate_provider_score (clients q) st q ct rm
          = calculate_provider_score (clients2 q) st q ct rm) →
        select_provider providers clients st ct rm randVal
          = select_provider providers clients2 st ct rm randVal)) := by
  subst hscored
  subst hsorted
  subst htop
  subst htotal
  refine ⟨?_, ?_, ?_⟩
  · intro hp
    obtain ⟨pr, prs, rfl⟩ := List.exists_cons_of_ne_nil hp
    have hlen : (sortByScoreDesc ((pr :: prs).map
        (fun q => (q, calculate_provider_score (clients q) st q ct rm)))).length
        = prs.length + 1 := by
      rw [sortByScoreDesc_length]; simp
    cases hs : sortByScoreDesc ((pr :: prs).map
        (fun q => (q, calculate_provider_score (clients q) st q ct rm))) with
    | nil => rw [hs] at hlen; simp at hlen
    | cons s0 rest =>
      rw [select_provider_cons]
      dsimp only
      rw [hs]
      have hmin : min 3 (s0 :: rest).length = min 2 rest.length + 1 := by
        simp only [List.length_cons]; omega
      by_cases ht : (((s0 :: rest).take (min 3 (s0 :: rest).length)).map Prod.snd).sum = 0
      · rw [if_pos ht]
        exact ⟨s0.1, rfl, by rw [hmin]; simp⟩
      · rw [if_neg ht]
        cases hpick : weightedPick randVal 0
            ((s0 :: rest).take (min 3 (s0 :: rest).length)) with
        | some p =>
          refine ⟨p, rfl, ?_⟩
          have := weightedPick_mem randVal _ 0 p hpick
          simpa using this
        | none =>
          refine ⟨s0.1, ?_, by rw [hmin]; simp⟩
          rw [hmin]
          simp
  · intro hp hrle ht
    obtain ⟨pr, prs, rfl⟩ := List.exists_cons_of_ne_nil hp
    have hlen : (sortByScoreDesc ((pr :: prs).map
        (fun q => (q, calculate_provider_score (clients q) st q ct rm)))).length
        = prs.length + 1 := by
      rw [sortByScoreDesc_length]; simp
    cases hs : sortByScoreDesc ((pr :: prs).map
        (fun q => (q, calculate_provider_score (clients q) st q ct rm))) with
    | nil => rw [hs] at hlen; simp at hlen
    | cons s0 rest =>
      rw [hs] at hrle ht
      have hmin : min 3 (s0 :: rest).length = min 2 rest.length + 1 := by
        simp only [List.length_cons]; omega
      obtain ⟨p, hpick⟩ := weightedPick_some randVal
        ((s0 :: rest).take (min 3 (s0 :: rest).length)) 0
        (by rw [hmin]; simp) (by simpa using hrle)
      refine ⟨p, hpick, ?_, ?_, ?_⟩
      · rw [select_provider_cons]
        dsimp only
        rw [hs, if_neg ht, hpick]
      · rw [select_provider_cons]
        dsimp only
        rw [hs, if_neg ht, hpick]
        exact alistLookup_set _ _ _
      · rw [select_provider_cons]
        dsimp only
        rw [hs, if_neg ht, hpick]
        simp only [update_provider_stats, alistLookup_set]
        rw [Nat.add_sub_cancel]
  · intro hagree
    cases providers with
    | nil => rfl
    | cons pr prs =>
      have hmap : (pr :: prs).map
          (fun q => (q, calculate_provider_score (clients q) st q ct rm))
        = (pr :: prs).map
          (fun q => (q, calculate_provider_score (clients2 q) st q ct rm)) :=
        List.map_congr_left (fun q hq => by rw [hagree q hq])
      rw [select_provider_cons, select_provider_cons]
      dsimp only
      rw [hmap]

/-- Counterexample for C7: when every provider scores 0 (here: the
registry has no client, so `_calculate_provider_score` returns 0.0),
`select_provider` returns the top scorer directly — no weighted draw —
and does not increment the in-flight load counter: the balancer state
is returned unchanged, so "selecting a provider increments its
in-flight load counter" fails on this non-empty snapshot. -/
theorem C7_zero_score_counterexample :
    (select_provider ["a"] (fun _ => none) {} 0 none 0).1 = some "a"
    ∧ (select_provider ["a"] (fun _ => none) {} 0 none 0).2 = ({} : SmartState)
    ∧ alistLookup (select_provider ["a"] (fun _ => none) {} 0 none 0).2.currentLoads "a"
      = none := by
  refine ⟨?_, ?_, ?_⟩ <;>
    simp [select_provider_cons, calculate_provider_score, sortByScoreDesc,
      insertByScore, alistLookup]

/-- Witness for C7 (amended): a concrete two-provider snapshot where
provider `"a"` scores 1 and `"b"` scores 7/10.  The draw value 6/5
lands past `"a"`'s weight, so the balancer picks the runner-up `"b"`
(not the argmax `"a"`), increments `"b"`'s load counter, and
`update_provider_stats` brings it back down. -/
theorem C7_smart_selection_witness :
    select_provider ["a", "b"] demoClients {} 1000 none (6/5)
      = (some "b",
        { currentLoads := [("b", 1)], lastSelectionTime := [("b", 1000)],
          providerStats := [] })
    ∧ alistLookup (update_provider_stats
        (select_provider ["a", "b"] demoClients {} 1000 none (6/5)).2
        "b" true 1).currentLoads "b" = some 0 := by
  have hca : demoClients "a" = some demoClientA := rfl
  have hcb : demoClients "b" = some demoClientB := rfl
  have hA : calculate_provider_score (demoClients "a") ({} : SmartState) "a" 1000 none
      = 1 := by
    rw [hca]
    norm_num [demoClientA, calculate_provider_score, score_from_stats,
      get_stats, alistLookup, maxLoad, min_def]
  have hB : calculate_provider_score (demoClients "b") ({} : SmartState) "b" 1000 none
      = 7/10 := by
    rw [hcb]
    norm_num [demoClientB, calculate_provider_score, score_from_stats,
      get_stats, alistLookup, maxLoad, min_def]
  have hscored : [("a", (1 : ℚ)), ("b", (7/10 : ℚ))]
      = (["a", "b"]).map (fun q => (q,
          calculate_provider_score (demoClients q) ({} : SmartState) q 1000 none)) := by
    simp only [List.map_cons, List.map_nil]
    rw [hA, hB]
  have hsorted : [("a", (1 : ℚ)), ("b", (7/10 : ℚ))]
      = sortByScoreDesc [("a", (1 : ℚ)), ("b", (7/10 : ℚ))] := by
    norm_num [sortByScoreDesc, insertByScore]
  have htop : [("a", (1 : ℚ)), ("b", (7/10 : ℚ))]
      = ([("a", (1 : ℚ)), ("b", (7/10 : ℚ))]).take
          (min 3 ([("a", (1 : ℚ)), ("b", (7/10 : ℚ))]).length) := rfl
  have htotal : (17/10 : ℚ)
      = (([("a", (1 : ℚ)), ("b", (7/10 : ℚ))]).map Prod.snd).sum := by
    norm_num
  obtain ⟨p, hpick, hsel, hinc, hdec⟩ :=
    (C7_smart_selection ["a", "b"] demoClients demoClients {} 1000 none (6/5)
      [("a", (1 : ℚ)), ("b", (7/10 : ℚ))] [("a", (1 : ℚ)), ("b", (7/10 : ℚ))]
      [("a", (1 : ℚ)), ("b", (7/10 : ℚ))] (17/10)
      hscored hsorted htop htotal).2.1
      (by simp) (by norm_num) (by norm_num)
  have hwp : weightedPick (6/5) 0 [("a", (1 : ℚ)), ("b", (7/10 : ℚ))] = some "b" := by
    norm_num [weightedPick]
  have hpb : p = "b" := by
    rw [hwp] at hpick
    exact (Option.some_inj.mp hpick).symm
  subst hpb
  constructor
  · rw [hsel]
    simp [alistSet, alistLookup]
  · exact hdec

end LLMAPI
